import Mathlib

/-!
Verification of the file-transfer core of the `downloader` repository.

The development shallowly embeds the server-side transfer core
(`server/filetransfer/server/transfer.py`, `file_manager.py`,
`protocol/messages.py`, `protocol/tools.py`) into Lean:

* bytes are modelled as `Nat` values `< 256` collected in `List Nat`;
* Python `dict`s keyed by strings are modelled as association lists
  (the only observations made on them are lookup, update and removal);
* the transfer-service session id (`str(header.session_id)`, a decimal
  string without underscore) keys the transfer/memory tables, so it is
  modelled directly as the `Nat` it prints; the staging file name
  `f"{file_id}_{filename}"` is modelled as the pair `(file_id, filename)`
  (decimal ids contain no underscore, so the string key and the pair are
  in bijection);
* the filesystem directories `root_dir` and `temp_dir` are modelled as
  flat maps from file name (byte string) to file content, matching the
  flat layouts the service itself creates;
* `zlib.crc32` is the bit-level IEEE CRC32 used by CPython.
-/

/-! ## Association lists (model of Python dict / directory maps) -/

def alGet {α β : Type} [DecidableEq α] : List (α × β) → α → Option β
  | [], _ => none
  | (a, b) :: t, k => if a = k then some b else alGet t k

def alRemove {α β : Type} [DecidableEq α] : List (α × β) → α → List (α × β)
  | [], _ => []
  | (a, b) :: t, k => if a = k then alRemove t k else (a, b) :: alRemove t k

def alSet {α β : Type} [DecidableEq α] (l : List (α × β)) (k : α) (v : β) : List (α × β) :=
  (k, v) :: alRemove l k

theorem alGet_alRemove {α β : Type} [DecidableEq α] (l : List (α × β)) (k k' : α) :
    alGet (alRemove l k) k' = if k = k' then none else alGet l k' := by
  induction l with
  | nil => simp [alGet, alRemove]
  | cons p t ih =>
    obtain ⟨a, b⟩ := p
    simp only [alRemove]
    by_cases hp : a = k
    · subst hp
      rw [if_pos rfl, ih]
      by_cases h : a = k'
      · simp [h]
      · simp [alGet, h]
    · rw [if_neg hp]
      simp only [alGet]
      by_cases hpk : a = k'
      · subst hpk
        have h : ¬k = a := fun hh => hp hh.symm
        simp [h]
      · simp [hpk, ih]

theorem alGet_alSet {α β : Type} [DecidableEq α] (l : List (α × β)) (k k' : α) (v : β) :
    alGet (alSet l k v) k' = if k = k' then some v else alGet l k' := by
  by_cases h : k = k'
  · simp [alSet, alGet, h]
  · simp [alSet, alGet, h, alGet_alRemove]

/-! ## ASCII byte strings -/

/-- Bytes of an ASCII string (all texts appearing in the protocol model are
ASCII, where UTF-8 encoding is the identity on code points). -/
def msgBytes (s : String) : List Nat :=
  s.toList.map Char.toNat

/-! ## Big-endian packing (model of struct.pack / struct.unpack) -/

def pack16 (x : Nat) : List Nat :=
  [x / 256 % 256, x % 256]

def pack32 (x : Nat) : List Nat :=
  [x / 2 ^ 24 % 256, x / 2 ^ 16 % 256, x / 2 ^ 8 % 256, x % 256]

def pack64 (x : Nat) : List Nat :=
  [x / 2 ^ 56 % 256, x / 2 ^ 48 % 256, x / 2 ^ 40 % 256, x / 2 ^ 32 % 256,
   x / 2 ^ 24 % 256, x / 2 ^ 16 % 256, x / 2 ^ 8 % 256, x % 256]

def unpackBE (l : List Nat) : Nat :=
  l.foldl (fun acc b => acc * 256 + b) 0

/-- Model of struct.unpack for a 4-byte big-endian unsigned field. -/
def unpack32 (l : List Nat) : Nat :=
  unpackBE (l.take 4)

/-- Model of struct.unpack for an 8-byte big-endian unsigned field. -/
def unpack64 (l : List Nat) : Nat :=
  unpackBE (l.take 8)

/-! ## CRC32 (IEEE, as computed by zlib.crc32) -/

def crc32Table (c : Nat) : Nat :=
  (List.range 8).foldl
    (fun c _ => if c % 2 = 1 then Nat.xor (c / 2) 0xEDB88320 else c / 2) c

def crc32Update (crc b : Nat) : Nat :=
  crc32Table (Nat.xor crc (b % 256) % 256) ^^^ (crc / 256)

/-- zlib.crc32 over a byte list (initial value 0). -/
def crc32 (data : List Nat) : Nat :=
  Nat.xor (data.foldl (fun c b => crc32Update c b) 0xFFFFFFFF) 0xFFFFFFFF

/-! ## Random-access buffer writes

`bufWrite buf pos chunk` models both the Python `bytearray` slice
assignment used by the memory staging path (after zero-extension up to
`pos`) and the seek-pad-write sequence used by the disk staging path:
the buffer is zero-padded up to `pos` when shorter, the bytes of `chunk`
replace positions `pos .. pos + chunk.length`, and any bytes beyond are
kept. -/

def bufWrite (buf : List Nat) (pos : Nat) (chunk : List Nat) : List Nat :=
  (buf ++ List.replicate (pos - buf.length) 0).take pos
    ++ chunk ++ buf.drop (pos + chunk.length)

theorem bufWrite_length (buf : List Nat) (pos : Nat) (chunk : List Nat) :
    (bufWrite buf pos chunk).length = max buf.length (pos + chunk.length) := by
  simp only [bufWrite, List.length_append, List.length_take, List.length_replicate,
    List.length_drop]
  omega

/-! ## Protocol constants and header (protocol/messages.py, protocol/types.py) -/

def PROTOCOL_MAGIC : Nat := 0x4442

namespace MessageType

def HANDSHAKE : Nat := 1

def FILE_REQUEST : Nat := 2

def FILE_METADATA : Nat := 3

def FILE_DATA : Nat := 4

def CHECKSUM_VERIFY : Nat := 5

def ERROR : Nat := 6

def ACK : Nat := 7

def RESUME_REQUEST : Nat := 8

def CLOSE : Nat := 9

def LIST_REQUEST : Nat := 10

def LIST_RESPONSE : Nat := 11

def NLST_REQUEST : Nat := 12

def NLST_RESPONSE : Nat := 13

def LIST_ERROR : Nat := 14

end MessageType

/-- The numeric codes of the MessageType IntEnum; the constructor
MessageType(v) in ProtocolHeader.from_bytes accepts exactly these. -/
def isKnownMessageType (v : Nat) : Bool :=
  1 ≤ v && v ≤ 14

namespace ProtocolState

def INIT : Nat := 0

def CONNECTED : Nat := 1

def TRANSFERRING : Nat := 2

def COMPLETED : Nat := 3

def ERROR : Nat := 4

end ProtocolState

structure ProtocolHeader where
  magic : Nat
  version : Nat
  msg_type : Nat
  payload_length : Nat
  sequence_number : Nat
  checksum : Nat
  chunk_number : Nat
  session_id : Nat
deriving DecidableEq, Repr

/-- ProtocolHeader.to_bytes: struct.pack with layout !HHIIIIIQ (32 bytes,
big-endian); defined for field values inside their declared widths. -/
def ProtocolHeader.to_bytes (h : ProtocolHeader) : List Nat :=
  pack16 h.magic ++ pack16 h.version ++ pack32 h.msg_type ++ pack32 h.payload_length
    ++ pack32 h.sequence_number ++ pack32 h.checksum ++ pack32 h.chunk_number
    ++ pack64 h.session_id

/-- ProtocolHeader.from_bytes: requires exactly the 32 header bytes
(shorter input raises ValueError, longer input fails struct.unpack),
checks the magic number, and validates the message-type code via the
MessageType constructor; each failure mode is modelled as none. -/
def ProtocolHeader.from_bytes (bs : List Nat) : Option ProtocolHeader :=
  match bs with
  | [a0, a1, b0, b1, c0, c1, c2, c3, d0, d1, d2, d3, e0, e1, e2, e3,
     f0, f1, f2, f3, g0, g1, g2, g3, s0, s1, s2, s3, s4, s5, s6, s7] =>
    let magic := unpackBE [a0, a1]
    let version := unpackBE [b0, b1]
    let msg_type := unpackBE [c0, c1, c2, c3]
    let payload_length := unpackBE [d0, d1, d2, d3]
    let sequence_number := unpackBE [e0, e1, e2, e3]
    let checksum := unpackBE [f0, f1, f2, f3]
    let chunk_number := unpackBE [g0, g1, g2, g3]
    let session_id := unpackBE [s0, s1, s2, s3, s4, s5, s6, s7]
    if magic ≠ PROTOCOL_MAGIC then none
    else if ¬ isKnownMessageType msg_type then none
    else some ⟨magic, version, msg_type, payload_length, sequence_number,
               checksum, chunk_number, session_id⟩
  | _ => none

/-! ## MessageBuilder (protocol/tools.py) -/

structure MessageBuilder where
  version : Nat
  sequence_number : Nat
  session_id : Nat
  state : Nat
deriving DecidableEq, Repr

/-- MessageBuilder._build_header: fills magic, version, payload length,
the current sequence number and session id, computes the CRC32 checksum
of the payload, and advances the sequence counter by one. -/
def MessageBuilder.build_header (b : MessageBuilder) (msg_type : Nat)
    (payload : List Nat) (chunk_number : Nat) : ProtocolHeader × MessageBuilder :=
  (⟨PROTOCOL_MAGIC, b.version, msg_type, payload.length, b.sequence_number,
    crc32 payload, chunk_number, b.session_id⟩,
   { b with sequence_number := b.sequence_number + 1 })

/-- MessageBuilder.build_message (replies are modelled as the structured
header plus payload; the wire form is ProtocolHeader.to_bytes of it). -/
def MessageBuilder.build_message (b : MessageBuilder) (msg_type : Nat)
    (payload : List Nat) : (ProtocolHeader × List Nat) × MessageBuilder :=
  let r := b.build_header msg_type payload 0
  ((r.1, payload), r.2)

def MessageBuilder.build_handshake (b : MessageBuilder) :
    (ProtocolHeader × List Nat) × MessageBuilder :=
  b.build_message MessageType.HANDSHAKE (pack32 b.version)

def MessageBuilder.build_ack (b : MessageBuilder) (received_seq : Nat) :
    (ProtocolHeader × List Nat) × MessageBuilder :=
  b.build_message MessageType.ACK (pack32 received_seq)

def MessageBuilder.build_chunk_ack (b : MessageBuilder) (received_seq chunk_number : Nat) :
    (ProtocolHeader × List Nat) × MessageBuilder :=
  let payload := pack32 received_seq
  let r := b.build_header MessageType.ACK payload chunk_number
  ((r.1, payload), r.2)

def MessageBuilder.build_error (b : MessageBuilder) (error_msg : String) :
    (ProtocolHeader × List Nat) × MessageBuilder :=
  b.build_message MessageType.ERROR (msgBytes error_msg)

def MessageBuilder.build_file_metadata (b : MessageBuilder) (filename : List Nat)
    (size checksum : Nat) : (ProtocolHeader × List Nat) × MessageBuilder :=
  b.build_message MessageType.FILE_METADATA (pack64 size ++ pack32 checksum ++ filename)

def MessageBuilder.build_list_error (b : MessageBuilder) (error_msg : String) :
    (ProtocolHeader × List Nat) × MessageBuilder :=
  b.build_message MessageType.LIST_ERROR (msgBytes error_msg)

/-- Encoding of one list entry inside build_list_response:
struct.pack !?QQ plus a length-prefixed UTF-8 name. -/
def packListEntry (name : List Nat) (size mtime : Nat) (is_dir : Bool) : List Nat :=
  [if is_dir then 1 else 0] ++ pack64 size ++ pack64 mtime ++ pack16 name.length ++ name

def MessageBuilder.build_list_response (b : MessageBuilder)
    (entries : List (List Nat × Nat × Nat × Bool)) (format : Nat) :
    (ProtocolHeader × List Nat) × MessageBuilder :=
  let payload := entries.foldl
    (fun acc e => acc ++ packListEntry e.1 e.2.1 e.2.2.1 e.2.2.2) (pack32 format)
  b.build_message MessageType.LIST_RESPONSE payload

/-! ## State machine of the transfer service
(FileTransferService._is_valid_state_transition) -/

def valid_transitions (state : Nat) : List Nat :=
  if state = ProtocolState.INIT then [MessageType.HANDSHAKE]
  else if state = ProtocolState.CONNECTED then
    [MessageType.HANDSHAKE, MessageType.FILE_REQUEST, MessageType.LIST_REQUEST,
     MessageType.NLST_REQUEST, MessageType.RESUME_REQUEST, MessageType.CLOSE]
  else if state = ProtocolState.TRANSFERRING then
    [MessageType.HANDSHAKE, MessageType.FILE_DATA, MessageType.CHECKSUM_VERIFY,
     MessageType.ACK, MessageType.FILE_REQUEST, MessageType.RESUME_REQUEST]
  else if state = ProtocolState.COMPLETED then
    [MessageType.FILE_REQUEST, MessageType.LIST_REQUEST, MessageType.NLST_REQUEST]
  else []

/-- FileTransferService._is_valid_state_transition: the Error state accepts
every message type, FILE_DATA is additionally legal in Connected and
Transferring, and otherwise the per-state list decides. -/
def is_valid_state_transition (state msg_type : Nat) : Bool :=
  if state = ProtocolState.ERROR then true
  else if msg_type = MessageType.FILE_DATA
      && (state = ProtocolState.CONNECTED || state = ProtocolState.TRANSFERRING) then true
  else (valid_transitions state).contains msg_type

/-! ## File manager (server/file_manager.py) -/

structure TransferContext where
  file_id : Nat
  filename : List Nat
  file_size : Nat
  use_memory : Bool
  chunks_received : List Nat
  checksum : Option Nat
  is_completed : Bool
deriving DecidableEq, Repr

structure FileInfo where
  name : List Nat
  size : Nat
  modified_time : Nat
  is_directory : Bool
deriving DecidableEq, Repr

/-- State of one FileManager: the published root directory, the staging
(temp) directory keyed by `(file_id, filename)`, the live transfer
contexts keyed by file id, and the in-memory staging buffers. The
storage strategy of the transfer service is the default HYBRID one. -/
structure FMState where
  root : List (List Nat × List Nat)
  temp : List ((Nat × List Nat) × List Nat)
  transfers : List (Nat × TransferContext)
  memory_cache : List (Nat × List Nat)
  memory_usage : Nat
  chunk_size : Nat
deriving DecidableEq, Repr

/-- FileManager._should_use_memory under the default HYBRID strategy:
memory staging exactly for declared sizes up to the 10 KiB threshold. -/
def should_use_memory (file_size : Nat) : Bool :=
  file_size ≤ 10 * 1024

/-- Chunk-indices scan that prepare_transfer performs on an existing
staging file: a chunk counts as received when its bytes are present and
not all zero. -/
def scanChunks (buf : List Nat) (file_size chunk_size : Nat) : List Nat :=
  (List.range ((file_size + chunk_size - 1) / chunk_size)).filter
    (fun i =>
      let chunk := (buf.drop (i * chunk_size)).take chunk_size
      !chunk.isEmpty && chunk.any (fun b => b != 0))

/-- FileManager.prepare_transfer: builds a fresh TransferContext; in
memory mode it resets the in-memory buffer to empty, in disk mode it
recovers received chunk indices from an existing staging file. -/
def prepare_transfer (fm : FMState) (file_id : Nat) (filename : List Nat)
    (file_size : Nat) : FMState × TransferContext :=
  let use_memory := should_use_memory file_size
  if use_memory then
    let context : TransferContext :=
      ⟨file_id, filename, file_size, true, [], none, false⟩
    ({ fm with memory_cache := alSet fm.memory_cache file_id [],
               memory_usage := fm.memory_usage + file_size,
               transfers := alSet fm.transfers file_id context }, context)
  else
    let received :=
      match alGet fm.temp (file_id, filename) with
      | none => []
      | some buf => scanChunks buf file_size fm.chunk_size
    let context : TransferContext :=
      ⟨file_id, filename, file_size, false, received, none, false⟩
    ({ fm with transfers := alSet fm.transfers file_id context }, context)

/-- Set-insertion of a chunk index (Python set.add). -/
def insertChunk (l : List Nat) (n : Nat) : List Nat :=
  if l.contains n then l else l ++ [n]

/-- FileManager.write_chunk: refuses writes whose start position reaches
file_size or whose end would exceed it; otherwise pads and overwrites the
staging buffer (memory or disk) and records the chunk index. A memory
context whose buffer is missing fails via the caught KeyError. -/
def write_chunk (fm : FMState) (file_id : Nat) (chunk : List Nat)
    (chunk_number : Nat) : FMState × Bool :=
  match alGet fm.transfers file_id with
  | none => (fm, false)
  | some context =>
    let pos := chunk_number * fm.chunk_size
    if pos ≥ context.file_size then (fm, false)
    else if pos + chunk.length > context.file_size then (fm, false)
    else
      let context' := { context with
        chunks_received := insertChunk context.chunks_received chunk_number }
      if context.use_memory then
        match alGet fm.memory_cache file_id with
        | none => (fm, false)
        | some cache =>
          ({ fm with
              memory_cache := alSet fm.memory_cache file_id (bufWrite cache pos chunk),
              transfers := alSet fm.transfers file_id context' }, true)
      else
        let buf := (alGet fm.temp (file_id, context.filename)).getD []
        let buf1 := bufWrite buf pos chunk
        let buf2 := if pos + chunk.length = context.file_size
                    then buf1.take (pos + chunk.length) else buf1
        ({ fm with
            temp := alSet fm.temp (file_id, context.filename) buf2,
            transfers := alSet fm.transfers file_id context' }, true)

/-- FileManager.verify_file: CRC32 of the staged content; a missing
context or staging resource yields None (caught exception). -/
def verify_file (fm : FMState) (file_id : Nat) : FMState × Option Nat :=
  match alGet fm.transfers file_id with
  | none => (fm, none)
  | some context =>
    if context.use_memory then
      match alGet fm.memory_cache file_id with
      | none => (fm, none)
      | some data =>
        let c := crc32 data
        let context2 := { context with checksum := some c }
        ({ fm with transfers := alSet fm.transfers file_id context2 }, some c)
    else
      match alGet fm.temp (file_id, context.filename) with
      | none => (fm, none)
      | some buf =>
        let c := crc32 buf
        let context2 := { context with checksum := some c }
        ({ fm with transfers := alSet fm.transfers file_id context2 }, some c)

/-- FileManager.complete_transfer: publishes the staged bytes under the
root directory and drops the transfer record; a disk transfer whose
staging file is missing fails (caught exception around shutil.copy). -/
def complete_transfer (fm : FMState) (file_id : Nat) : FMState × Bool :=
  match alGet fm.transfers file_id with
  | none => (fm, false)
  | some context =>
    if context.use_memory then
      match alGet fm.memory_cache file_id with
      | none => (fm, false)
      | some cache =>
        ({ fm with
            root := alSet fm.root context.filename cache,
            memory_usage := fm.memory_usage - cache.length,
            memory_cache := alRemove fm.memory_cache file_id,
            transfers := alRemove fm.transfers file_id }, true)
    else
      match alGet fm.temp (file_id, context.filename) with
      | none => (fm, false)
      | some buf =>
        ({ fm with
            root := alSet fm.root context.filename buf,
            transfers := alRemove fm.transfers file_id }, true)

/-- FileManager.list_files in the flat-directory model: only the
top-level directory (path empty or "/") has entries, every entry is a
plain file; modification times are not modelled and read as 0. -/
def list_files (fm : FMState) (path : List Nat) : List FileInfo :=
  if path = [] || path = msgBytes "/" then
    fm.root.map (fun nc => ⟨nc.1, nc.2.length, 0, false⟩)
  else []

/-! ## Transfer service (server/transfer.py, FileTransferService) -/

/-- Model of bytes.decode for the ASCII fragment of UTF-8 (all paths and
payload texts relevant here are ASCII; a byte outside that range is
conservatively treated as a decode failure). -/
def decodeUtf8 (bs : List Nat) : Option (List Nat) :=
  if bs.all (fun b => b < 128) then some bs else none

structure ServiceState where
  fm : FMState
  builder : MessageBuilder
deriving DecidableEq, Repr

/-- Reply produced through MessageBuilder.build_error, with the updated
builder folded back into the service state. -/
def errorReply (s : ServiceState) (msg : String) :
    ServiceState × ProtocolHeader × List Nat :=
  let r := s.builder.build_error msg
  ({ s with builder := r.2 }, r.1)

/-- Reply produced through MessageBuilder.build_list_error. -/
def listErrorReply (s : ServiceState) (msg : String) :
    ServiceState × ProtocolHeader × List Nat :=
  let r := s.builder.build_list_error msg
  ({ s with builder := r.2 }, r.1)

/-- FileTransferService._handle_handshake. -/
def handle_handshake (s : ServiceState) (_header : ProtocolHeader)
    (payload : List Nat) : ServiceState × ProtocolHeader × List Nat :=
  if payload.length ≠ 4 then errorReply s "Invalid handshake payload"
  else if unpack32 payload ≠ s.builder.version then errorReply s "Version mismatch"
  else
    let b := { s.builder with state := ProtocolState.CONNECTED }
    let r := b.build_handshake
    ({ s with builder := r.2 }, r.1)

/-- FileTransferService._handle_file_request: decodes the filename,
creates the file under root when missing (touch), reads the actual file
size from root, prepares a transfer context keyed by the session id, and
replies with FileMetadata. -/
def handle_file_request (s : ServiceState) (header : ProtocolHeader)
    (payload : List Nat) : ServiceState × ProtocolHeader × List Nat :=
  match decodeUtf8 payload with
  | none => errorReply s "Invalid filename encoding"
  | some filename =>
    let root' :=
      match alGet s.fm.root filename with
      | some _ => s.fm.root
      | none => alSet s.fm.root filename []
    let file_size := ((alGet root' filename).getD []).length
    let fm1 := { s.fm with root := root' }
    let fm2 := (prepare_transfer fm1 header.session_id filename file_size).1
    let b := { s.builder with session_id := header.session_id,
                              state := ProtocolState.TRANSFERRING }
    let r := b.build_file_metadata filename file_size 0
    ({ fm := fm2, builder := r.2 }, r.1)

/-- FileTransferService._handle_file_data: validates the chunk number
against max(1, ceil(file_size / chunk_size)) and the payload length
against the expected chunk size, writes the chunk, and acknowledges with
the echoed chunk number. -/
def handle_file_data (s : ServiceState) (header : ProtocolHeader)
    (payload : List Nat) : ServiceState × ProtocolHeader × List Nat :=
  match alGet s.fm.transfers header.session_id with
  | none => errorReply s "No active transfer"
  | some context =>
    let total_chunks :=
      max 1 ((context.file_size + s.fm.chunk_size - 1) / s.fm.chunk_size)
    if header.chunk_number ≥ total_chunks then errorReply s "Invalid chunk number"
    else
      let expected_size :=
        if context.file_size > 0 then
          min s.fm.chunk_size (context.file_size - header.chunk_number * s.fm.chunk_size)
        else s.fm.chunk_size
      if payload.length > expected_size then errorReply s "Chunk size exceeds limit"
      else
        let wr := write_chunk s.fm header.session_id payload header.chunk_number
        if !wr.2 then errorReply { s with fm := wr.1 } "Failed to write chunk"
        else
          let r := s.builder.build_chunk_ack header.sequence_number header.chunk_number
          ({ fm := wr.1, builder := r.2 }, r.1)

/-- FileTransferService._handle_checksum_verify: verifies the staged
content against the expected CRC32 from the payload and publishes on
success, moving the session to Completed. -/
def handle_checksum_verify (s : ServiceState) (header : ProtocolHeader)
    (payload : List Nat) : ServiceState × ProtocolHeader × List Nat :=
  if payload.length ≠ 4 then errorReply s "Invalid checksum payload"
  else
    let expected_checksum := unpack32 payload
    let vr := verify_file s.fm header.session_id
    match vr.2 with
    | none => errorReply { s with fm := vr.1 } "Failed to verify file"
    | some v =>
      if v ≠ expected_checksum then errorReply { s with fm := vr.1 } "Checksum mismatch"
      else
        let cr := complete_transfer vr.1 header.session_id
        if cr.2 then
          let b := { s.builder with state := ProtocolState.COMPLETED }
          let r := b.build_ack header.sequence_number
          ({ fm := cr.1, builder := r.2 }, r.1)
        else errorReply { s with fm := cr.1 } "Failed to complete transfer"

/-- FileTransferService._handle_resume_request: reads the 8-byte offset
and the filename, requires the file to exist under root and the offset
not to exceed its size, then rebuilds the context via prepare_transfer
and replies with FileMetadata. -/
def handle_resume_request (s : ServiceState) (header : ProtocolHeader)
    (payload : List Nat) : ServiceState × ProtocolHeader × List Nat :=
  if payload.length < 8 then errorReply s "Invalid resume request payload"
  else
    let offset := unpack64 (payload.take 8)
    match decodeUtf8 (payload.drop 8) with
    | none => errorReply s "Invalid resume request payload"
    | some filename =>
      match alGet s.fm.root filename with
      | none => errorReply s "File not found"
      | some content =>
        let file_size := content.length
        if offset > file_size then errorReply s "Invalid offset"
        else
          let pr := prepare_transfer s.fm header.session_id filename file_size
          let b := { s.builder with session_id := header.session_id,
                                    state := ProtocolState.TRANSFERRING }
          let r := b.build_file_metadata filename file_size (pr.2.checksum.getD 0)
          ({ fm := pr.1, builder := r.2 }, r.1)

/-- ListFilter codes (protocol/types.py). -/
def LIST_FILTER_ALL : Nat := 0

def LIST_FILTER_FILES_ONLY : Nat := 1

def LIST_FILTER_DIRS_ONLY : Nat := 2

/-- FileTransferService._handle_list_request: parses the ListRequest
payload (format, filter, optional path defaulting to "/"), lists the
directory, applies the filter, and replies with a ListResponse; a
malformed payload is answered through build_list_error. -/
def handle_list_request (s : ServiceState) (_header : ProtocolHeader)
    (payload : List Nat) : ServiceState × ProtocolHeader × List Nat :=
  if payload.length < 8 then listErrorReply s "Invalid list request"
  else
    let format := unpack32 (payload.take 4)
    let filter := unpack32 ((payload.drop 4).take 4)
    if ¬(format = 1 ∨ format = 2) ∨ ¬(filter ≤ 2) then
      listErrorReply s "Invalid list request"
    else
      let path := if payload.length > 8 then payload.drop 8 else msgBytes "/"
      let files := list_files s.fm path
      let entries := (files.filter
        (fun f => (filter != LIST_FILTER_DIRS_ONLY || f.is_directory)
          && (filter != LIST_FILTER_FILES_ONLY || !f.is_directory))).map
        (fun f => (f.name, f.size, f.modified_time, f.is_directory))
      let r := s.builder.build_list_response entries format
      ({ s with builder := r.2 }, r.1)

/-- FileTransferService.handle_message dispatch on the handlers table;
message kinds without a registered handler are answered with the
Unsupported message type error. -/
def dispatch_message (s : ServiceState) (header : ProtocolHeader)
    (payload : List Nat) : ServiceState × ProtocolHeader × List Nat :=
  if header.msg_type = MessageType.HANDSHAKE then handle_handshake s header payload
  else if header.msg_type = MessageType.FILE_REQUEST then
    handle_file_request s header payload
  else if header.msg_type = MessageType.FILE_DATA then
    handle_file_data s header payload
  else if header.msg_type = MessageType.CHECKSUM_VERIFY then
    handle_checksum_verify s header payload
  else if header.msg_type = MessageType.LIST_REQUEST then
    handle_list_request s header payload
  else if header.msg_type = MessageType.RESUME_REQUEST then
    handle_resume_request s header payload
  else errorReply s "Unsupported message type"

/-- FileTransferService.handle_message: magic check, version check,
state-transition check, checksum check (skipped entirely when the header
checksum is 0), then dispatch. -/
def handle_message (s : ServiceState) (header : ProtocolHeader)
    (payload : List Nat) : ServiceState × ProtocolHeader × List Nat :=
  if header.magic ≠ PROTOCOL_MAGIC then errorReply s "Invalid magic number"
  else if header.version ≠ s.builder.version then errorReply s "Version mismatch"
  else if ¬(is_valid_state_transition s.builder.state header.msg_type) then
    errorReply s "Invalid state transition"
  else if header.checksum ≠ 0 ∧ header.checksum ≠ crc32 payload then
    errorReply s "Checksum verification failed"
  else dispatch_message s header payload

/-- Run a sequence of frames through one session service, collecting the
reply to each frame in order. -/
def runTrace (s : ServiceState) :
    List (ProtocolHeader × List Nat) → ServiceState × List (ProtocolHeader × List Nat)
  | [] => (s, [])
  | f :: rest =>
    let step := handle_message s f.1 f.2
    let rest' := runTrace step.1 rest
    (rest'.1, step.2 :: rest'.2)

/-- A freshly created session service (FileTransferService.__init__ plus
start_session, as performed by SessionManager.create_session): empty
staging state, a given initial root directory, chunk size 8192, protocol
version 1, session id advanced to 1, state Init. -/
def initService (root : List (List Nat × List Nat)) : ServiceState :=
  { fm := { root := root, temp := [], transfers := [], memory_cache := [],
            memory_usage := 0, chunk_size := 8192 },
    builder := { version := 1, sequence_number := 0, session_id := 1,
                 state := ProtocolState.INIT } }

/-! ## Packing and CRC32 bounds -/

theorem unpack32_pack32 (x : Nat) (hx : x < 2 ^ 32) : unpack32 (pack32 x) = x := by
  simp only [unpack32, pack32, unpackBE, List.take, List.foldl]
  omega

theorem unpack64_pack64 (x : Nat) (hx : x < 2 ^ 64) : unpack64 (pack64 x) = x := by
  simp only [unpack64, pack64, unpackBE, List.take, List.foldl]
  omega

theorem crc32Table_lt (c : Nat) (hc : c < 2 ^ 32) : crc32Table c < 2 ^ 32 := by
  simp only [crc32Table, List.range_succ, List.range_zero, List.foldl_append,
    List.foldl_cons, List.foldl_nil, List.nil_append]
  have step : ∀ a : Nat, a < 2 ^ 32 →
      (if a % 2 = 1 then Nat.xor (a / 2) 0xEDB88320 else a / 2) < 2 ^ 32 := by
    intro a ha
    by_cases h : a % 2 = 1
    · simp only [h, if_pos rfl]
      exact Nat.xor_lt_two_pow (by omega) (by norm_num)
    · simp only [h, if_false]
      omega
  exact step _ (step _ (step _ (step _ (step _ (step _ (step _ (step _ hc)))))))

theorem crc32Update_lt (crc b : Nat) (hc : crc < 2 ^ 32) : crc32Update crc b < 2 ^ 32 := by
  unfold crc32Update
  have h256 : Nat.xor crc (b % 256) % 256 < 2 ^ 32 := by
    have := Nat.mod_lt (Nat.xor crc (b % 256)) (show 0 < 256 by norm_num)
    omega
  exact Nat.xor_lt_two_pow (crc32Table_lt _ h256) (by omega)

theorem crc32_lt (data : List Nat) : crc32 data < 2 ^ 32 := by
  unfold crc32
  have h : ∀ (l : List Nat) (a : Nat), a < 2 ^ 32 →
      (l.foldl (fun c b => crc32Update c b) a) < 2 ^ 32 := by
    intro l
    induction l with
    | nil => intro a ha; simpa using ha
    | cons x t ih =>
      intro a ha
      exact ih _ (crc32Update_lt _ _ ha)
  exact Nat.xor_lt_two_pow (h _ _ (by norm_num)) (by norm_num)

def ReplyWF (s : ServiceState) (res : ServiceState × ProtocolHeader × List Nat) : Prop :=
  res.2.1.magic = PROTOCOL_MAGIC ∧
  res.2.1.payload_length = res.2.2.length ∧
  res.2.1.checksum = crc32 res.2.2 ∧
  res.2.1.sequence_number = s.builder.sequence_number ∧
  res.1.builder.sequence_number = s.builder.sequence_number + 1

theorem replyWF_errorReply (s s' : ServiceState) (m : String)
    (hb : s'.builder = s.builder) : ReplyWF s (errorReply s' m) := by
  simp [ReplyWF, errorReply, MessageBuilder.build_error, MessageBuilder.build_message,
    MessageBuilder.build_header, hb]

theorem replyWF_listErrorReply (s s' : ServiceState) (m : String)
    (hb : s'.builder = s.builder) : ReplyWF s (listErrorReply s' m) := by
  simp [ReplyWF, listErrorReply, MessageBuilder.build_list_error, MessageBuilder.build_message,
    MessageBuilder.build_header, hb]

theorem replyWF_handshake (s : ServiceState) (h : ProtocolHeader) (p : List Nat) :
    ReplyWF s (handle_handshake s h p) := by
  simp only [handle_handshake, MessageBuilder.build_handshake, MessageBuilder.build_message,
    MessageBuilder.build_header]
  repeat' split
  all_goals first
    | exact replyWF_errorReply _ _ _ rfl
    | simp [ReplyWF]

theorem replyWF_file_request (s : ServiceState) (h : ProtocolHeader) (p : List Nat) :
    ReplyWF s (handle_file_request s h p) := by
  simp only [handle_file_request, MessageBuilder.build_file_metadata,
    MessageBuilder.build_message, MessageBuilder.build_header]
  repeat' split
  all_goals first
    | exact replyWF_errorReply _ _ _ rfl
    | simp [ReplyWF]

theorem replyWF_file_data (s : ServiceState) (h : ProtocolHeader) (p : List Nat) :
    ReplyWF s (handle_file_data s h p) := by
  simp only [handle_file_data, MessageBuilder.build_chunk_ack, MessageBuilder.build_header]
  repeat' split
  all_goals first
    | exact replyWF_errorReply _ _ _ rfl
    | simp [ReplyWF]

theorem replyWF_checksum_verify (s : ServiceState) (h : ProtocolHeader) (p : List Nat) :
    ReplyWF s (handle_checksum_verify s h p) := by
  simp only [handle_checksum_verify, MessageBuilder.build_ack, MessageBuilder.build_message,
    MessageBuilder.build_header]
  repeat' split
  all_goals first
    | exact replyWF_errorReply _ _ _ rfl
    | simp [ReplyWF]

theorem replyWF_resume_request (s : ServiceState) (h : ProtocolHeader) (p : List Nat) :
    ReplyWF s (handle_resume_request s h p) := by
  simp only [handle_resume_request, MessageBuilder.build_file_metadata,
    MessageBuilder.build_message, MessageBuilder.build_header]
  repeat' split
  all_goals first
    | exact replyWF_errorReply _ _ _ rfl
    | simp [ReplyWF]

theorem replyWF_list_request (s : ServiceState) (h : ProtocolHeader) (p : List Nat) :
    ReplyWF s (handle_list_request s h p) := by
  simp only [handle_list_request, MessageBuilder.build_list_response,
    MessageBuilder.build_message, MessageBuilder.build_header]
  repeat' split
  all_goals first
    | exact replyWF_listErrorReply _ _ _ rfl
    | simp [ReplyWF]

theorem replyWF_handle_message (s : ServiceState) (h : ProtocolHeader) (p : List Nat) :
    ReplyWF s (handle_message s h p) := by
  unfold handle_message dispatch_message
  repeat' split
  all_goals first
    | exact replyWF_errorReply _ _ _ rfl
    | exact replyWF_handshake _ _ _
    | exact replyWF_file_request _ _ _
    | exact replyWF_file_data _ _ _
    | exact replyWF_checksum_verify _ _ _
    | exact replyWF_list_request _ _ _
    | exact replyWF_resume_request _ _ _

/-- C9: for every valid header (magic 0x4442, known message kind, fields
within their widths) and payload of the declared length, decoding the
encoded frame returns exactly the header and payload: from_bytes applied
to the 32 header bytes of to_bytes recovers the header, and the appended
payload bytes are unchanged. -/
theorem c9_frame_roundtrip (h : ProtocolHeader) (p : List Nat)
    (hmagic : h.magic = PROTOCOL_MAGIC)
    (hknown : isKnownMessageType h.msg_type = true)
    (hv : h.version < 2 ^ 16)
    (hpl : h.payload_length < 2 ^ 32)
    (hsn : h.sequence_number < 2 ^ 32)
    (hck : h.checksum < 2 ^ 32)
    (hcn : h.chunk_number < 2 ^ 32)
    (hsid : h.session_id < 2 ^ 64)
    (hlen : p.length = h.payload_length) :
    ProtocolHeader.from_bytes ((ProtocolHeader.to_bytes h ++ p).take 32) = some h ∧
    (ProtocolHeader.to_bytes h ++ p).drop 32 = p := by
  obtain ⟨m, v, t, pl, sn, ck, cn, sid⟩ := h
  subst hmagic
  have hkn : isKnownMessageType t = true := hknown
  have hv' : v < 2 ^ 16 := hv
  have hpl' : pl < 2 ^ 32 := hpl
  have hsn' : sn < 2 ^ 32 := hsn
  have hck' : ck < 2 ^ 32 := hck
  have hcn' : cn < 2 ^ 32 := hcn
  have hsid' : sid < 2 ^ 64 := hsid
  have hknown' : 1 ≤ t ∧ t ≤ 14 := by simpa [isKnownMessageType] using hkn
  have htb : ProtocolHeader.to_bytes ⟨PROTOCOL_MAGIC, v, t, pl, sn, ck, cn, sid⟩ =
      [PROTOCOL_MAGIC / 256 % 256, PROTOCOL_MAGIC % 256, v / 256 % 256, v % 256,
       t / 2 ^ 24 % 256, t / 2 ^ 16 % 256, t / 2 ^ 8 % 256, t % 256,
       pl / 2 ^ 24 % 256, pl / 2 ^ 16 % 256, pl / 2 ^ 8 % 256, pl % 256,
       sn / 2 ^ 24 % 256, sn / 2 ^ 16 % 256, sn / 2 ^ 8 % 256, sn % 256,
       ck / 2 ^ 24 % 256, ck / 2 ^ 16 % 256, ck / 2 ^ 8 % 256, ck % 256,
       cn / 2 ^ 24 % 256, cn / 2 ^ 16 % 256, cn / 2 ^ 8 % 256, cn % 256,
       sid / 2 ^ 56 % 256, sid / 2 ^ 48 % 256, sid / 2 ^ 40 % 256, sid / 2 ^ 32 % 256,
       sid / 2 ^ 24 % 256, sid / 2 ^ 16 % 256, sid / 2 ^ 8 % 256, sid % 256] := by
    simp [ProtocolHeader.to_bytes, pack16, pack32, pack64]
  rw [htb]
  have hlen32 : ([PROTOCOL_MAGIC / 256 % 256, PROTOCOL_MAGIC % 256, v / 256 % 256, v % 256,
       t / 2 ^ 24 % 256, t / 2 ^ 16 % 256, t / 2 ^ 8 % 256, t % 256,
       pl / 2 ^ 24 % 256, pl / 2 ^ 16 % 256, pl / 2 ^ 8 % 256, pl % 256,
       sn / 2 ^ 24 % 256, sn / 2 ^ 16 % 256, sn / 2 ^ 8 % 256, sn % 256,
       ck / 2 ^ 24 % 256, ck / 2 ^ 16 % 256, ck / 2 ^ 8 % 256, ck % 256,
       cn / 2 ^ 24 % 256, cn / 2 ^ 16 % 256, cn / 2 ^ 8 % 256, cn % 256,
       sid / 2 ^ 56 % 256, sid / 2 ^ 48 % 256, sid / 2 ^ 40 % 256, sid / 2 ^ 32 % 256,
       sid / 2 ^ 24 % 256, sid / 2 ^ 16 % 256, sid / 2 ^ 8 % 256, sid % 256] :
         List Nat).length = 32 := by
    simp
  constructor
  · rw [List.take_left' hlen32]
    simp only [ProtocolHeader.from_bytes, unpackBE, List.foldl]
    have hmagic2 : ((0 * 256 + PROTOCOL_MAGIC / 256 % 256) * 256 + PROTOCOL_MAGIC % 256)
        = PROTOCOL_MAGIC := by
      norm_num [PROTOCOL_MAGIC]
    have ht2 : ((((0 * 256 + t / 2 ^ 24 % 256) * 256 + t / 2 ^ 16 % 256) * 256
        + t / 2 ^ 8 % 256) * 256 + t % 256) = t := by
      omega
    rw [hmagic2, ht2]
    simp only [ne_eq, not_true_eq_false, if_false, hkn, not_false_eq_true, Bool.not_true,
      ite_false, Option.some.injEq, ProtocolHeader.mk.injEq]
    refine ⟨trivial, ?_, trivial, ?_, ?_, ?_, ?_, ?_⟩
    · omega
    · omega
    · omega
    · omega
    · omega
    · omega
  · rw [List.drop_left' hlen32]

/-- Witness for C9 at a concrete FileData header and 3-byte payload. -/
theorem c9_frame_roundtrip_witness :
    ProtocolHeader.from_bytes
        ((ProtocolHeader.to_bytes ⟨0x4442, 1, 4, 3, 7, 5, 2, 9⟩ ++ [10, 20, 30]).take 32) =
      some ⟨0x4442, 1, 4, 3, 7, 5, 2, 9⟩ ∧
    (ProtocolHeader.to_bytes ⟨0x4442, 1, 4, 3, 7, 5, 2, 9⟩ ++ [10, 20, 30]).drop 32 =
      [10, 20, 30] :=
  c9_frame_roundtrip ⟨0x4442, 1, 4, 3, 7, 5, 2, 9⟩ [10, 20, 30] rfl (by decide)
    (by norm_num) (by norm_num) (by norm_num) (by norm_num) (by norm_num) (by norm_num) rfl

/-- C10: every reply frame built by MessageBuilder, and hence every reply
the transfer service emits through handle_message, carries the protocol
magic, a payload_length equal to the actual reply payload length and a
checksum equal to the CRC32 of the reply payload; the header echoes the
builder sequence number, which then advances by exactly one per built
message, so consecutive replies of a session carry strictly increasing
sequence numbers. -/
theorem c10_builder_replies_valid :
    (∀ (b : MessageBuilder) (t : Nat) (payload : List Nat) (cn : Nat),
      (b.build_header t payload cn).1.magic = PROTOCOL_MAGIC ∧
      (b.build_header t payload cn).1.payload_length = payload.length ∧
      (b.build_header t payload cn).1.checksum = crc32 payload ∧
      (b.build_header t payload cn).1.sequence_number = b.sequence_number ∧
      (b.build_header t payload cn).2.sequence_number = b.sequence_number + 1) ∧
    (∀ (s : ServiceState) (h : ProtocolHeader) (p : List Nat),
      (handle_message s h p).2.1.magic = PROTOCOL_MAGIC ∧
      (handle_message s h p).2.1.payload_length = (handle_message s h p).2.2.length ∧
      (handle_message s h p).2.1.checksum = crc32 (handle_message s h p).2.2 ∧
      (handle_message s h p).2.1.sequence_number = s.builder.sequence_number ∧
      (handle_message s h p).1.builder.sequence_number = s.builder.sequence_number + 1) := by
  constructor
  · intro b t payload cn
    simp [MessageBuilder.build_header]
  · intro s h p
    exact replyWF_handle_message s h p

theorem alGet_alSet_self {α β : Type} [DecidableEq α] (l : List (α × β)) (k : α) (v : β) :
    alGet (alSet l k v) k = some v := by
  simp [alGet_alSet]

/-- Staged content of a transfer: the in-memory buffer for memory
contexts, the staging file for disk contexts (empty when absent). -/
def stagedBuf (fm : FMState) (file_id : Nat) (ctx : TransferContext) : List Nat :=
  if ctx.use_memory then (alGet fm.memory_cache file_id).getD []
  else (alGet fm.temp (file_id, ctx.filename)).getD []

/-- C6: for every live transfer context, a chunk whose start offset
reaches the declared file size, or whose end would exceed it, is not
written and write_chunk returns false leaving the state unchanged; a
successful write stays strictly inside the file size, and the staged
content never grows beyond file_size. -/
theorem c6_no_write_past_file_size (fm : FMState) (file_id : Nat) (chunk : List Nat) (n : Nat)
    (ctx : TransferContext)
    (hctx : alGet fm.transfers file_id = some ctx)
    (hlen : (stagedBuf fm file_id ctx).length ≤ ctx.file_size) :
    ((n * fm.chunk_size ≥ ctx.file_size ∨
        n * fm.chunk_size + chunk.length > ctx.file_size) →
      write_chunk fm file_id chunk n = (fm, false)) ∧
    ((write_chunk fm file_id chunk n).2 = true →
      n * fm.chunk_size < ctx.file_size ∧
      n * fm.chunk_size + chunk.length ≤ ctx.file_size) ∧
    (stagedBuf (write_chunk fm file_id chunk n).1 file_id ctx).length ≤ ctx.file_size := by
  unfold write_chunk
  rw [hctx]
  simp only
  set pos := n * fm.chunk_size with hpos
  by_cases h1 : pos ≥ ctx.file_size
  · rw [if_pos h1]
    exact ⟨fun _ => rfl, fun hcontra => by simp at hcontra, hlen⟩
  · rw [if_neg h1]
    by_cases h2 : pos + chunk.length > ctx.file_size
    · rw [if_pos h2]
      exact ⟨fun _ => rfl, fun hcontra => by simp at hcontra, hlen⟩
    · rw [if_neg h2]
      by_cases hm : ctx.use_memory
      · rw [if_pos hm]
        cases hcache : alGet fm.memory_cache file_id with
        | none =>
          exact ⟨fun hbad => by omega, fun hcontra => by simp at hcontra, hlen⟩
        | some cache =>
          refine ⟨fun hbad => by omega, fun _ => by omega, ?_⟩
          have hc : cache.length ≤ ctx.file_size := by
            have hsb : stagedBuf fm file_id ctx = cache := by
              simp [stagedBuf, hm, hcache]
            rw [hsb] at hlen
            exact hlen
          simp only [stagedBuf, hm, if_pos, alGet_alSet_self, Option.getD_some]
          rw [bufWrite_length]
          omega
      · rw [if_neg hm]
        refine ⟨fun hbad => by omega, fun _ => by omega, ?_⟩
        have hb : ((alGet fm.temp (file_id, ctx.filename)).getD []).length ≤ ctx.file_size := by
          simpa [stagedBuf, hm] using hlen
        simp only [stagedBuf]
        rw [if_neg hm, alGet_alSet_self, Option.getD_some]
        by_cases hfin : pos + chunk.length = ctx.file_size
        · rw [if_pos hfin, List.length_take]
          omega
        · rw [if_neg hfin, bufWrite_length]
          omega

/-- Witness for C6 at a concrete memory-staged transfer of size 10. -/
theorem c6_no_write_past_file_size_witness :
    ((0 * 8192 ≥ (10:Nat) ∨ 0 * 8192 + [5, 6].length > 10) →
      write_chunk ⟨[], [], [(1, ⟨1, [120], 10, true, [], none, false⟩)], [(1, [])], 0, 8192⟩
        1 [5, 6] 0 =
      (⟨[], [], [(1, ⟨1, [120], 10, true, [], none, false⟩)], [(1, [])], 0, 8192⟩, false)) ∧
    ((write_chunk ⟨[], [], [(1, ⟨1, [120], 10, true, [], none, false⟩)], [(1, [])], 0, 8192⟩
        1 [5, 6] 0).2 = true →
      0 * 8192 < 10 ∧ 0 * 8192 + [5, 6].length ≤ 10) ∧
    (stagedBuf (write_chunk ⟨[], [], [(1, ⟨1, [120], 10, true, [], none, false⟩)], [(1, [])], 0,
        8192⟩ 1 [5, 6] 0).1 1 ⟨1, [120], 10, true, [], none, false⟩).length ≤ 10 :=
  c6_no_write_past_file_size
    ⟨[], [], [(1, ⟨1, [120], 10, true, [], none, false⟩)], [(1, [])], 0, 8192⟩
    1 [5, 6] 0 ⟨1, [120], 10, true, [], none, false⟩ (by decide) (by decide)

/-- Total chunk count as the specification states it: the ceiling of
file_size / chunk_size. -/
def totalChunksSpec (file_size chunk_size : Nat) : Nat :=
  (file_size + chunk_size - 1) / chunk_size

/-- Expected size of a chunk as the specification states it: chunk_size
for every chunk but the last, the remainder for the last. -/
def expectedChunkSizeSpec (file_size chunk_size tc n : Nat) : Nat :=
  if n + 1 < tc then chunk_size else file_size - (tc - 1) * chunk_size

theorem errorReply_msg_type (s : ServiceState) (m : String) :
    (errorReply s m).2.1.msg_type = MessageType.ERROR := rfl

/-- C7: a FileData frame for the live transfer context is answered with
an Error reply exactly when its chunk number reaches the ceiling of
file_size / chunk_size or its payload exceeds the expected size of that
chunk (chunk_size for all but the last chunk, the remainder for the
last); otherwise the chunk is persisted and the reply is an Ack echoing
the chunk number. -/
theorem c7_file_data_validation (s : ServiceState) (h : ProtocolHeader) (p : List Nat)
    (ctx : TransferContext)
    (hctx : alGet s.fm.transfers h.session_id = some ctx)
    (hmagic : h.magic = PROTOCOL_MAGIC)
    (hver : h.version = s.builder.version)
    (hstate : s.builder.state = ProtocolState.TRANSFERRING)
    (hmsg : h.msg_type = MessageType.FILE_DATA)
    (hck : h.checksum = 0 ∨ h.checksum = crc32 p)
    (hcs : s.fm.chunk_size = 8192)
    (hmem : ctx.use_memory = true → (alGet s.fm.memory_cache h.session_id).isSome = true) :
    ((h.chunk_number ≥ totalChunksSpec ctx.file_size 8192 ∨
        p.length > expectedChunkSizeSpec ctx.file_size 8192
          (totalChunksSpec ctx.file_size 8192) h.chunk_number) →
      (handle_message s h p).2.1.msg_type = MessageType.ERROR) ∧
    (h.chunk_number < totalChunksSpec ctx.file_size 8192 →
      p.length ≤ expectedChunkSizeSpec ctx.file_size 8192
        (totalChunksSpec ctx.file_size 8192) h.chunk_number →
      (handle_message s h p).2.1.msg_type = MessageType.ACK ∧
      (handle_message s h p).2.1.chunk_number = h.chunk_number) := by
  have hred : handle_message s h p = handle_file_data s h p := by
    unfold handle_message dispatch_message
    have hc1 : ¬(h.magic ≠ PROTOCOL_MAGIC) := fun hh => hh hmagic
    have hc2 : ¬(h.version ≠ s.builder.version) := fun hh => hh hver
    have hc3 : ¬(¬(is_valid_state_transition s.builder.state h.msg_type = true)) := by
      rw [hstate, hmsg]
      decide
    have hc4 : ¬(h.checksum ≠ 0 ∧ h.checksum ≠ crc32 p) := by
      rcases hck with hck | hck <;> simp [hck]
    rw [if_neg hc1, if_neg hc2, if_neg hc3, if_neg hc4, hmsg]
    norm_num [MessageType.HANDSHAKE, MessageType.FILE_REQUEST, MessageType.FILE_DATA]
  rw [hred]
  unfold handle_file_data
  rw [hctx, hcs]
  simp only
  set tc := totalChunksSpec ctx.file_size 8192 with htc
  have htcdef : tc = (ctx.file_size + 8192 - 1) / 8192 := by
    rw [htc]; rfl
  have hub : expectedChunkSizeSpec ctx.file_size 8192 tc h.chunk_number =
      (if h.chunk_number + 1 < tc then 8192 else ctx.file_size - (tc - 1) * 8192) := rfl
  by_cases hn : h.chunk_number ≥ max 1 ((ctx.file_size + 8192 - 1) / 8192)
  · rw [if_pos hn]
    refine ⟨fun _ => errorReply_msg_type _ _, fun hlt _ => absurd hlt (by omega)⟩
  · rw [if_neg hn]
    by_cases hfs : ctx.file_size > 0
    · have e1 : 1 ≤ tc := by rw [htcdef]; omega
      have hexp : (if ctx.file_size > 0 then
          min 8192 (ctx.file_size - h.chunk_number * 8192) else 8192) =
          expectedChunkSizeSpec ctx.file_size 8192 tc h.chunk_number := by
        rw [if_pos hfs, hub]
        split
        · omega
        · omega
      rw [hexp]
      by_cases hpl : p.length > expectedChunkSizeSpec ctx.file_size 8192 tc h.chunk_number
      · rw [if_pos hpl]
        refine ⟨fun _ => errorReply_msg_type _ _, fun _ hle => absurd hle (by omega)⟩
      · rw [if_neg hpl]
        have key : h.chunk_number * 8192 < ctx.file_size ∧
            h.chunk_number * 8192 + p.length ≤ ctx.file_size := by
          rw [hub] at hpl
          by_cases hlast : h.chunk_number + 1 < tc
          · rw [if_pos hlast] at hpl
            omega
          · rw [if_neg hlast] at hpl
            omega
        have hwrite : write_chunk s.fm h.session_id p h.chunk_number =
            ((write_chunk s.fm h.session_id p h.chunk_number).1, true) := by
          unfold write_chunk
          rw [hctx, hcs]
          simp only
          rw [if_neg (by omega : ¬(h.chunk_number * 8192 ≥ ctx.file_size)),
              if_neg (by omega : ¬(h.chunk_number * 8192 + p.length > ctx.file_size))]
          by_cases hm : ctx.use_memory
          · rw [if_pos hm]
            obtain ⟨cache, hcache⟩ := Option.isSome_iff_exists.mp (hmem hm)
            rw [hcache]
          · rw [if_neg hm]
        rw [hwrite]
        simp only [Bool.not_true, Bool.false_eq_true, if_false, ite_false]
        constructor
        · intro hbad
          rcases hbad with hbad | hbad
          · exact absurd hbad (by omega)
          · exact absurd hbad hpl
        · exact fun _ _ => ⟨rfl, rfl⟩
    · have htc0 : tc = 0 := by rw [htcdef]; omega
      rw [if_neg hfs]
      constructor
      · intro _
        by_cases hpl : p.length > 8192
        · rw [if_pos hpl]
          exact errorReply_msg_type _ _
        · rw [if_neg hpl]
          have hwrite : write_chunk s.fm h.session_id p h.chunk_number = (s.fm, false) := by
            unfold write_chunk
            rw [hctx]
            simp only
            rw [if_pos (by omega : h.chunk_number * s.fm.chunk_size ≥ ctx.file_size)]
          rw [hwrite]
          simp only [Bool.not_false, if_pos, ite_true]
          exact errorReply_msg_type _ _
      · intro hlt
        exact absurd hlt (by omega)

/-- Witness for C7: a 2-byte chunk 0 of a 3-byte memory transfer is
acknowledged with chunk number 0 echoed. -/
theorem c7_file_data_validation_witness :
    ((0 ≥ totalChunksSpec 3 8192 ∨
        [9, 9].length > expectedChunkSizeSpec 3 8192 (totalChunksSpec 3 8192) 0) →
      (handle_message
          ⟨⟨[], [], [(1, ⟨1, [120], 3, true, [], none, false⟩)], [(1, [])], 0, 8192⟩,
           ⟨1, 0, 1, 2⟩⟩
          ⟨0x4442, 1, 4, 2, 0, 0, 0, 1⟩ [9, 9]).2.1.msg_type = MessageType.ERROR) ∧
    (0 < totalChunksSpec 3 8192 →
      [9, 9].length ≤ expectedChunkSizeSpec 3 8192 (totalChunksSpec 3 8192) 0 →
      (handle_message
          ⟨⟨[], [], [(1, ⟨1, [120], 3, true, [], none, false⟩)], [(1, [])], 0, 8192⟩,
           ⟨1, 0, 1, 2⟩⟩
          ⟨0x4442, 1, 4, 2, 0, 0, 0, 1⟩ [9, 9]).2.1.msg_type = MessageType.ACK ∧
      (handle_message
          ⟨⟨[], [], [(1, ⟨1, [120], 3, true, [], none, false⟩)], [(1, [])], 0, 8192⟩,
           ⟨1, 0, 1, 2⟩⟩
          ⟨0x4442, 1, 4, 2, 0, 0, 0, 1⟩ [9, 9]).2.1.chunk_number = 0) :=
  c7_file_data_validation
    ⟨⟨[], [], [(1, ⟨1, [120], 3, true, [], none, false⟩)], [(1, [])], 0, 8192⟩,
     ⟨1, 0, 1, 2⟩⟩
    ⟨0x4442, 1, 4, 2, 0, 0, 0, 1⟩ [9, 9] ⟨1, [120], 3, true, [], none, false⟩
    (by decide) rfl rfl rfl rfl (Or.inl rfl) rfl (fun _ => by decide)

set_option maxRecDepth 40000

/-- Amended C3: a frame whose kind is illegal in the current state is
answered with an Error reply, but the session state is left unchanged
rather than moving to Error; and a session whose state is Error passes
the state-transition check for every message kind, so no frame is
rejected there for state reasons. -/
theorem c3_amended_state_handling :
    (∀ (s : ServiceState) (h : ProtocolHeader) (p : List Nat),
      h.magic = PROTOCOL_MAGIC → h.version = s.builder.version →
      is_valid_state_transition s.builder.state h.msg_type = false →
      (handle_message s h p).2.1.msg_type = MessageType.ERROR ∧
      (handle_message s h p).1.builder.state = s.builder.state) ∧
    (∀ t : Nat, is_valid_state_transition ProtocolState.ERROR t = true) := by
  constructor
  · intro s h p hmagic hver hbad
    unfold handle_message
    rw [if_neg (fun hh => hh hmagic), if_neg (fun hh => hh hver),
      if_pos (by rw [hbad]; simp)]
    exact ⟨rfl, rfl⟩
  · intro t
    simp [is_valid_state_transition]

/-- Witness for the amended C3 at a concrete illegal frame: FileData in
state Init. -/
theorem c3_amended_state_handling_witness :
    (handle_message (initService []) ⟨0x4442, 1, 4, 0, 0, 0, 0, 1⟩ []).2.1.msg_type =
      MessageType.ERROR ∧
    (handle_message (initService []) ⟨0x4442, 1, 4, 0, 0, 0, 0, 1⟩ []).1.builder.state =
      (initService []).builder.state :=
  c3_amended_state_handling.1 (initService []) ⟨0x4442, 1, 4, 0, 0, 0, 0, 1⟩ []
    rfl rfl (by decide)

/-- Counterexample to C3: a FileData frame in state Init draws an Error
reply but the state stays Init instead of becoming Error; moreover in
state Error a FileRequest still passes the transition check, while an
Ack, which the claim says resets the session, is answered with the
Unsupported message type error because no handler is registered for it. -/
theorem c3_counterexample :
    (handle_message (initService []) ⟨0x4442, 1, 4, 0, 0, 0, 0, 1⟩ []).2.1.msg_type =
      MessageType.ERROR ∧
    (handle_message (initService []) ⟨0x4442, 1, 4, 0, 0, 0, 0, 1⟩ []).1.builder.state =
      ProtocolState.INIT ∧
    ProtocolState.INIT ≠ ProtocolState.ERROR ∧
    is_valid_state_transition ProtocolState.ERROR MessageType.FILE_REQUEST = true ∧
    (handle_message ⟨(initService []).fm, ⟨1, 0, 1, ProtocolState.ERROR⟩⟩
        ⟨0x4442, 1, 7, 0, 0, 0, 0, 1⟩ []).2.2 = msgBytes "Unsupported message type" := by
  decide

/-- Amended C4: after the magic, version and state checks, a frame is
rejected for its checksum exactly when the header checksum is nonzero
and differs from crc32(payload); a header checksum of 0 bypasses
verification for every payload, empty or not, and the frame is
dispatched as if correctly checksummed. -/
theorem c4_amended_checksum_policy :
    ∀ (s : ServiceState) (h : ProtocolHeader) (p : List Nat),
      h.magic = PROTOCOL_MAGIC → h.version = s.builder.version →
      is_valid_state_transition s.builder.state h.msg_type = true →
      ((h.checksum ≠ 0 ∧ h.checksum ≠ crc32 p →
        handle_message s h p = errorReply s "Checksum verification failed") ∧
       (h.checksum = 0 → handle_message s h p = dispatch_message s h p) ∧
       (h.checksum = crc32 p → handle_message s h p = dispatch_message s h p)) := by
  intro s h p hmagic hver hok
  have hc1 : ¬(h.magic ≠ PROTOCOL_MAGIC) := fun hh => hh hmagic
  have hc2 : ¬(h.version ≠ s.builder.version) := fun hh => hh hver
  have hc3 : ¬(¬(is_valid_state_transition s.builder.state h.msg_type = true)) := by
    rw [hok]; simp
  refine ⟨?_, ?_, ?_⟩
  · intro hbad
    unfold handle_message
    rw [if_neg hc1, if_neg hc2, if_neg hc3, if_pos hbad]
  · intro h0
    unfold handle_message
    rw [if_neg hc1, if_neg hc2, if_neg hc3, if_neg (by simp [h0])]
  · intro heq
    unfold handle_message
    rw [if_neg hc1, if_neg hc2, if_neg hc3, if_neg (by simp [heq])]

/-- Witness for the amended C4: a zero checksum on a nonempty FileRequest
payload bypasses verification. -/
theorem c4_amended_checksum_policy_witness :
    handle_message ⟨(initService []).fm, ⟨1, 0, 1, ProtocolState.CONNECTED⟩⟩
        ⟨0x4442, 1, 2, 5, 0, 0, 0, 1⟩ (msgBytes "f.txt") =
      dispatch_message ⟨(initService []).fm, ⟨1, 0, 1, ProtocolState.CONNECTED⟩⟩
        ⟨0x4442, 1, 2, 5, 0, 0, 0, 1⟩ (msgBytes "f.txt") :=
  ((c4_amended_checksum_policy ⟨(initService []).fm, ⟨1, 0, 1, ProtocolState.CONNECTED⟩⟩
      ⟨0x4442, 1, 2, 5, 0, 0, 0, 1⟩ (msgBytes "f.txt") rfl rfl (by decide)).2.1) rfl

/-- Counterexample to C4: a FileRequest frame with a nonempty payload and
header checksum 0 is handled (FileMetadata reply), although crc32 of the
payload is nonzero, so the frame was neither correctly checksummed nor
rejected. -/
theorem c4_counterexample :
    (handle_message ⟨(initService []).fm, ⟨1, 0, 1, ProtocolState.CONNECTED⟩⟩
        ⟨0x4442, 1, 2, 5, 0, 0, 0, 1⟩ (msgBytes "f.txt")).2.1.msg_type =
      MessageType.FILE_METADATA ∧
    crc32 (msgBytes "f.txt") ≠ 0 ∧
    (0:Nat) ≠ crc32 (msgBytes "f.txt") := by
  decide

/-! ## Path resolution (specification section on path confinement)

The service builds `self.root_dir / filename` with pathlib and performs
no normalisation or containment check; the following definitions model
the path semantics the specification prescribes, to compare the two. -/

/-- Components of a byte-string path, split on the slash byte. -/
def splitComponents (bs : List Nat) : List (List Nat) :=
  (bs.splitOn 47).filter (fun c => c ≠ [])

/-- Pathlib join semantics of `root / rel`: an absolute right operand
replaces the root entirely. -/
def pathlibJoin (root : List (List Nat)) (rel : List Nat) : List (List Nat) :=
  if rel.head? = some 47 then splitComponents rel else root ++ splitComponents rel

/-- Canonicalisation as the specification describes it: remove single-dot
components and let a double-dot component drop its parent. -/
def resolveComponents (cs : List (List Nat)) : List (List Nat) :=
  cs.foldl
    (fun acc c =>
      if c = msgBytes ".." then acc.dropLast
      else if c = msgBytes "." then acc
      else acc ++ [c]) []

/-- Specification predicate (spec path-confinement section): after
normalisation the absolute resolved path must start with the absolute
root path. -/
def pathWithinRootSpec (root : List (List Nat)) (rel : List Nat) : Bool :=
  root.isPrefixOf (resolveComponents (pathlibJoin root rel))

/-- Amended C2: the service applies no normalisation or containment check
to peer-supplied paths: every FileRequest whose filename decodes is
accepted with a FileMetadata reply, including filenames whose canonical
resolution leaves the root directory, such as "../escape.txt". -/
theorem c2_amended_no_path_confinement :
    (∀ (s : ServiceState) (h : ProtocolHeader) (p : List Nat),
      h.magic = PROTOCOL_MAGIC → h.version = s.builder.version →
      h.msg_type = MessageType.FILE_REQUEST →
      is_valid_state_transition s.builder.state MessageType.FILE_REQUEST = true →
      h.checksum = 0 →
      p.all (fun b => b < 128) = true →
      (handle_message s h p).2.1.msg_type = MessageType.FILE_METADATA) ∧
    pathWithinRootSpec [msgBytes "srv", msgBytes "root"] (msgBytes "../escape.txt") = false := by
  constructor
  · intro s h p hmagic hver hmsg hok h0 hascii
    have hc1 : ¬(h.magic ≠ PROTOCOL_MAGIC) := fun hh => hh hmagic
    have hc2 : ¬(h.version ≠ s.builder.version) := fun hh => hh hver
    have hc3 : ¬(¬(is_valid_state_transition s.builder.state h.msg_type = true)) := by
      rw [hmsg, hok]; simp
    have hc4 : ¬(h.checksum ≠ 0 ∧ h.checksum ≠ crc32 p) := by simp [h0]
    unfold handle_message dispatch_message
    rw [if_neg hc1, if_neg hc2, if_neg hc3, if_neg hc4, hmsg]
    norm_num [MessageType.HANDSHAKE, MessageType.FILE_REQUEST]
    unfold handle_file_request
    rw [show decodeUtf8 p = some p from by simp [decodeUtf8, hascii]]
    simp only
    split
    · rfl
    · rfl
  · decide

/-- Witness for the amended C2: the escaping FileRequest itself is
accepted with FileMetadata. -/
theorem c2_amended_no_path_confinement_witness :
    (handle_message ⟨(initService []).fm, ⟨1, 0, 1, ProtocolState.CONNECTED⟩⟩
        ⟨0x4442, 1, 2, 13, 0, 0, 0, 1⟩ (msgBytes "../escape.txt")).2.1.msg_type =
      MessageType.FILE_METADATA :=
  c2_amended_no_path_confinement.1
    ⟨(initService []).fm, ⟨1, 0, 1, ProtocolState.CONNECTED⟩⟩
    ⟨0x4442, 1, 2, 13, 0, 0, 0, 1⟩ (msgBytes "../escape.txt")
    rfl rfl rfl (by decide) rfl (by decide)

/-- Counterexample to C2: the FileRequest for "../escape.txt" is accepted
(FileMetadata reply, no Error), yet the canonical resolution of
root/"../escape.txt" does not start with the root path. -/
theorem c2_counterexample :
    (handle_message ⟨(initService []).fm, ⟨1, 0, 1, ProtocolState.CONNECTED⟩⟩
        ⟨0x4442, 1, 2, 13, 0, 0, 0, 1⟩ (msgBytes "../escape.txt")).2.1.msg_type =
      MessageType.FILE_METADATA ∧
    (handle_message ⟨(initService []).fm, ⟨1, 0, 1, ProtocolState.CONNECTED⟩⟩
        ⟨0x4442, 1, 2, 13, 0, 0, 0, 1⟩ (msgBytes "../escape.txt")).2.1.msg_type ≠
      MessageType.ERROR ∧
    pathWithinRootSpec [msgBytes "srv", msgBytes "root"] (msgBytes "../escape.txt") = false := by
  decide

theorem errorReply_fm (s : ServiceState) (m : String) : (errorReply s m).1.fm = s.fm := rfl

theorem listErrorReply_fm (s : ServiceState) (m : String) :
    (listErrorReply s m).1.fm = s.fm := rfl

theorem handle_handshake_fm (s : ServiceState) (h : ProtocolHeader) (p : List Nat) :
    (handle_handshake s h p).1.fm = s.fm := by
  unfold handle_handshake
  dsimp only
  repeat' split
  all_goals rfl

theorem handle_list_request_fm (s : ServiceState) (h : ProtocolHeader) (p : List Nat) :
    (handle_list_request s h p).1.fm = s.fm := by
  unfold handle_list_request
  dsimp only
  repeat' split
  all_goals rfl

theorem write_chunk_root (fm : FMState) (fid : Nat) (c : List Nat) (n : Nat) :
    (write_chunk fm fid c n).1.root = fm.root := by
  unfold write_chunk
  dsimp only
  repeat' split
  all_goals rfl

theorem handle_file_data_root (s : ServiceState) (h : ProtocolHeader) (p : List Nat) :
    (handle_file_data s h p).1.fm.root = s.fm.root := by
  unfold handle_file_data
  dsimp only
  repeat' split
  all_goals first
    | rfl
    | exact write_chunk_root s.fm h.session_id p h.chunk_number

theorem prepare_transfer_root (fm : FMState) (fid : Nat) (fn : List Nat) (fs : Nat) :
    (prepare_transfer fm fid fn fs).1.root = fm.root := by
  unfold prepare_transfer
  dsimp only
  repeat' split
  all_goals rfl

theorem handle_resume_request_root (s : ServiceState) (h : ProtocolHeader) (p : List Nat) :
    (handle_resume_request s h p).1.fm.root = s.fm.root := by
  unfold handle_resume_request
  dsimp only
  repeat' split
  all_goals first
    | rfl
    | exact prepare_transfer_root s.fm h.session_id _ _

theorem verify_file_root (fm : FMState) (fid : Nat) : (verify_file fm fid).1.root = fm.root := by
  unfold verify_file
  dsimp only
  repeat' split
  all_goals rfl

theorem complete_transfer_false_eq (fm : FMState) (fid : Nat)
    (hfalse : (complete_transfer fm fid).2 = false) : (complete_transfer fm fid).1 = fm := by
  unfold complete_transfer at *
  repeat' split at hfalse
  all_goals first
    | rfl
    | simp_all

theorem complete_transfer_true_root (fm : FMState) (fid : Nat) (ctx2 : TransferContext)
    (hctx : alGet fm.transfers fid = some ctx2)
    (htrue : (complete_transfer fm fid).2 = true) :
    (alGet (complete_transfer fm fid).1.root ctx2.filename).isSome = true := by
  unfold complete_transfer at htrue ⊢
  rw [hctx] at htrue ⊢
  dsimp only at htrue ⊢
  by_cases hm : ctx2.use_memory = true
  · rw [if_pos hm] at htrue ⊢
    cases hcache : alGet fm.memory_cache fid with
    | none =>
      rw [hcache] at htrue
      exact absurd htrue (by simp)
    | some cache =>
      dsimp only
      rw [alGet_alSet_self]
      rfl
  · rw [if_neg hm] at htrue ⊢
    cases hbuf : alGet fm.temp (fid, ctx2.filename) with
    | none =>
      rw [hbuf] at htrue
      exact absurd htrue (by simp)
    | some buf =>
      dsimp only
      rw [alGet_alSet_self]
      rfl

theorem alGet_alSet_isSome {α β : Type} [DecidableEq α] (l : List (α × β)) (k k' : α) (v : β)
    (hs : (alGet l k').isSome = true) : (alGet (alSet l k v) k').isSome = true := by
  rw [alGet_alSet]
  split
  · rfl
  · exact hs

theorem verify_file_transfers (fm : FMState) (fid : Nat) (ctx : TransferContext)
    (hctx : alGet fm.transfers fid = some ctx) :
    ∃ ctx', alGet (verify_file fm fid).1.transfers fid = some ctx' ∧
      ctx'.filename = ctx.filename := by
  unfold verify_file
  rw [hctx]
  dsimp only
  by_cases hm : ctx.use_memory = true
  · rw [if_pos hm]
    cases hcache : alGet fm.memory_cache fid with
    | none => exact ⟨ctx, hctx, rfl⟩
    | some cache =>
      dsimp only
      exact ⟨_, alGet_alSet_self _ _ _, rfl⟩
  · rw [if_neg hm]
    cases hbuf : alGet fm.temp (fid, ctx.filename) with
    | none => exact ⟨ctx, hctx, rfl⟩
    | some buf =>
      dsimp only
      exact ⟨_, alGet_alSet_self _ _ _, rfl⟩

theorem handle_file_request_root (s : ServiceState) (h : ProtocolHeader) (p : List Nat)
    (name c : List Nat)
    (hget : alGet (handle_file_request s h p).1.fm.root name = some c) :
    alGet s.fm.root name = some c ∨ c = [] := by
  unfold handle_file_request at hget
  cases hdec : decodeUtf8 p with
  | none =>
    rw [hdec] at hget
    exact Or.inl hget
  | some filename =>
    rw [hdec] at hget
    dsimp only at hget
    rw [prepare_transfer_root] at hget
    dsimp only at hget
    cases hr : alGet s.fm.root filename with
    | some old =>
      rw [hr] at hget
      exact Or.inl hget
    | none =>
      rw [hr] at hget
      rw [alGet_alSet] at hget
      by_cases hn : filename = name
      · rw [if_pos hn] at hget
        exact Or.inr (by injection hget.symm)
      · rw [if_neg hn] at hget
        exact Or.inl hget

theorem handle_checksum_verify_root (s : ServiceState) (h : ProtocolHeader) (p : List Nat)
    (name c : List Nat)
    (hget : alGet (handle_checksum_verify s h p).1.fm.root name = some c) :
    alGet s.fm.root name = some c ∨
      (handle_checksum_verify s h p).2.1.msg_type = MessageType.ACK := by
  unfold handle_checksum_verify at hget ⊢
  by_cases hl : p.length ≠ 4
  · rw [if_pos hl] at hget
    exact Or.inl hget
  · rw [if_neg hl] at hget ⊢
    dsimp only at hget ⊢
    cases hv : (verify_file s.fm h.session_id).2 with
    | none =>
      rw [hv] at hget
      dsimp only at hget
      rw [errorReply_fm] at hget
      dsimp only at hget
      rw [verify_file_root] at hget
      exact Or.inl hget
    | some v =>
      rw [hv] at hget
      dsimp only at hget ⊢
      by_cases hne : v ≠ unpack32 p
      · rw [if_pos hne] at hget
        rw [errorReply_fm] at hget
        dsimp only at hget
        rw [verify_file_root] at hget
        exact Or.inl hget
      · rw [if_neg hne] at hget ⊢
        by_cases hok : (complete_transfer (verify_file s.fm h.session_id).1 h.session_id).2 = true
        · rw [if_pos hok]
          exact Or.inr rfl
        · rw [if_neg hok] at hget
          rw [errorReply_fm] at hget
          dsimp only at hget
          rw [complete_transfer_false_eq _ _ (by simpa using hok), verify_file_root] at hget
          exact Or.inl hget

theorem dispatch_message_root (s : ServiceState) (h : ProtocolHeader) (p : List Nat)
    (name c : List Nat)
    (hget : alGet (dispatch_message s h p).1.fm.root name = some c) :
    alGet s.fm.root name = some c ∨ c = [] ∨
      (h.msg_type = MessageType.CHECKSUM_VERIFY ∧
       (dispatch_message s h p).2.1.msg_type = MessageType.ACK) := by
  unfold dispatch_message at hget ⊢
  by_cases h1 : h.msg_type = MessageType.HANDSHAKE
  · rw [if_pos h1] at hget
    rw [handle_handshake_fm] at hget
    exact Or.inl hget
  · rw [if_neg h1] at hget ⊢
    by_cases h2 : h.msg_type = MessageType.FILE_REQUEST
    · rw [if_pos h2] at hget
      rcases handle_file_request_root s h p name c hget with hc | hc
      · exact Or.inl hc
      · exact Or.inr (Or.inl hc)
    · rw [if_neg h2] at hget ⊢
      by_cases h3 : h.msg_type = MessageType.FILE_DATA
      · rw [if_pos h3] at hget
        rw [handle_file_data_root] at hget
        exact Or.inl hget
      · rw [if_neg h3] at hget ⊢
        by_cases h4 : h.msg_type = MessageType.CHECKSUM_VERIFY
        · rw [if_pos h4] at hget ⊢
          rcases handle_checksum_verify_root s h p name c hget with hc | hc
          · exact Or.inl hc
          · exact Or.inr (Or.inr ⟨h4, hc⟩)
        · rw [if_neg h4] at hget ⊢
          by_cases h5 : h.msg_type = MessageType.LIST_REQUEST
          · rw [if_pos h5] at hget
            rw [handle_list_request_fm] at hget
            exact Or.inl hget
          · rw [if_neg h5] at hget ⊢
            by_cases h6 : h.msg_type = MessageType.RESUME_REQUEST
            · rw [if_pos h6] at hget
              rw [handle_resume_request_root] at hget
              exact Or.inl hget
            · rw [if_neg h6] at hget
              exact Or.inl hget

theorem handle_message_root (s : ServiceState) (h : ProtocolHeader) (p : List Nat)
    (name c : List Nat)
    (hget : alGet (handle_message s h p).1.fm.root name = some c) :
    alGet s.fm.root name = some c ∨ c = [] ∨
      (h.msg_type = MessageType.CHECKSUM_VERIFY ∧
       (handle_message s h p).2.1.msg_type = MessageType.ACK) := by
  unfold handle_message at hget ⊢
  by_cases h1 : h.magic ≠ PROTOCOL_MAGIC
  · rw [if_pos h1] at hget
    exact Or.inl hget
  · rw [if_neg h1] at hget ⊢
    by_cases h2 : h.version ≠ s.builder.version
    · rw [if_pos h2] at hget
      exact Or.inl hget
    · rw [if_neg h2] at hget ⊢
      by_cases h3 : ¬(is_valid_state_transition s.builder.state h.msg_type = true)
      · rw [if_pos h3] at hget
        exact Or.inl hget
      · rw [if_neg h3] at hget ⊢
        by_cases h4 : h.checksum ≠ 0 ∧ h.checksum ≠ crc32 p
        · rw [if_pos h4] at hget
          exact Or.inl hget
        · rw [if_neg h4] at hget ⊢
          exact dispatch_message_root s h p name c hget

theorem complete_transfer_root_mono (fm : FMState) (fid : Nat) (name : List Nat)
    (hs : (alGet fm.root name).isSome = true) :
    (alGet (complete_transfer fm fid).1.root name).isSome = true := by
  unfold complete_transfer
  repeat' split
  all_goals first
    | exact hs
    | exact alGet_alSet_isSome _ _ _ _ hs

theorem handle_file_request_root_mono (s : ServiceState) (h : ProtocolHeader)
    (p : List Nat) (name : List Nat)
    (hs : (alGet s.fm.root name).isSome = true) :
    (alGet (handle_file_request s h p).1.fm.root name).isSome = true := by
  unfold handle_file_request
  cases hdec : decodeUtf8 p with
  | none => exact hs
  | some filename =>
    dsimp only
    rw [prepare_transfer_root]
    dsimp only
    cases hr : alGet s.fm.root filename with
    | some old => exact hs
    | none => exact alGet_alSet_isSome _ _ _ _ hs

theorem handle_checksum_verify_root_mono (s : ServiceState) (h : ProtocolHeader)
    (p : List Nat) (name : List Nat)
    (hs : (alGet s.fm.root name).isSome = true) :
    (alGet (handle_checksum_verify s h p).1.fm.root name).isSome = true := by
  unfold handle_checksum_verify
  by_cases hl : p.length ≠ 4
  · rw [if_pos hl]
    exact hs
  · rw [if_neg hl]
    dsimp only
    cases hv : (verify_file s.fm h.session_id).2 with
    | none =>
      dsimp only
      rw [errorReply_fm]
      dsimp only
      rw [verify_file_root]
      exact hs
    | some v =>
      dsimp only
      by_cases hne : v ≠ unpack32 p
      · rw [if_pos hne]
        rw [errorReply_fm]
        dsimp only
        rw [verify_file_root]
        exact hs
      · rw [if_neg hne]
        by_cases hok : (complete_transfer (verify_file s.fm h.session_id).1 h.session_id).2 = true
        · rw [if_pos hok]
          dsimp only
          refine complete_transfer_root_mono _ _ _ ?_
          rw [verify_file_root]
          exact hs
        · rw [if_neg hok]
          rw [errorReply_fm]
          dsimp only
          refine complete_transfer_root_mono _ _ _ ?_
          rw [verify_file_root]
          exact hs

theorem handle_message_root_mono (s : ServiceState) (h : ProtocolHeader) (p : List Nat)
    (name : List Nat) (hs : (alGet s.fm.root name).isSome = true) :
    (alGet (handle_message s h p).1.fm.root name).isSome = true := by
  unfold handle_message dispatch_message
  by_cases h1 : h.magic ≠ PROTOCOL_MAGIC
  · rw [if_pos h1]; exact hs
  · rw [if_neg h1]
    by_cases h2 : h.version ≠ s.builder.version
    · rw [if_pos h2]; exact hs
    · rw [if_neg h2]
      by_cases h3 : ¬(is_valid_state_transition s.builder.state h.msg_type = true)
      · rw [if_pos h3]; exact hs
      · rw [if_neg h3]
        by_cases h4 : h.checksum ≠ 0 ∧ h.checksum ≠ crc32 p
        · rw [if_pos h4]; exact hs
        · rw [if_neg h4]
          by_cases m1 : h.msg_type = MessageType.HANDSHAKE
          · rw [if_pos m1]
            rw [handle_handshake_fm]
            exact hs
          · rw [if_neg m1]
            by_cases m2 : h.msg_type = MessageType.FILE_REQUEST
            · rw [if_pos m2]
              exact handle_file_request_root_mono s h p name hs
            · rw [if_neg m2]
              by_cases m3 : h.msg_type = MessageType.FILE_DATA
              · rw [if_pos m3]
                rw [handle_file_data_root]
                exact hs
              · rw [if_neg m3]
                by_cases m4 : h.msg_type = MessageType.CHECKSUM_VERIFY
                · rw [if_pos m4]
                  exact handle_checksum_verify_root_mono s h p name hs
                · rw [if_neg m4]
                  by_cases m5 : h.msg_type = MessageType.LIST_REQUEST
                  · rw [if_pos m5]
                    rw [handle_list_request_fm]
                    exact hs
                  · rw [if_neg m5]
                    by_cases m6 : h.msg_type = MessageType.RESUME_REQUEST
                    · rw [if_pos m6]
                      rw [handle_resume_request_root]
                      exact hs
                    · rw [if_neg m6]
                      exact hs

theorem build_ack_msg_type (b : MessageBuilder) (n : Nat) :
    (b.build_ack n).1.1.msg_type = MessageType.ACK := rfl

theorem handle_message_cv_publishes (s : ServiceState) (h : ProtocolHeader) (p : List Nat)
    (ctx : TransferContext)
    (hmsg : h.msg_type = MessageType.CHECKSUM_VERIFY)
    (hctx : alGet s.fm.transfers h.session_id = some ctx)
    (hack : (handle_message s h p).2.1.msg_type = MessageType.ACK) :
    (alGet (handle_message s h p).1.fm.root ctx.filename).isSome = true := by
  unfold handle_message dispatch_message at hack ⊢
  by_cases h1 : h.magic ≠ PROTOCOL_MAGIC
  · rw [if_pos h1] at hack
    rw [errorReply_msg_type] at hack
    exact absurd hack (by decide)
  · rw [if_neg h1] at hack ⊢
    by_cases h2 : h.version ≠ s.builder.version
    · rw [if_pos h2] at hack
      rw [errorReply_msg_type] at hack
      exact absurd hack (by decide)
    · rw [if_neg h2] at hack ⊢
      by_cases h3 : ¬(is_valid_state_transition s.builder.state h.msg_type = true)
      · rw [if_pos h3] at hack
        rw [errorReply_msg_type] at hack
        exact absurd hack (by decide)
      · rw [if_neg h3] at hack ⊢
        by_cases h4 : h.checksum ≠ 0 ∧ h.checksum ≠ crc32 p
        · rw [if_pos h4] at hack
          rw [errorReply_msg_type] at hack
          exact absurd hack (by decide)
        · rw [if_neg h4] at hack ⊢
          rw [hmsg] at hack ⊢
          rw [if_neg (by decide), if_neg (by decide), if_neg (by decide),
            if_pos rfl] at hack ⊢
          unfold handle_checksum_verify at hack ⊢
          by_cases hl : p.length ≠ 4
          · rw [if_pos hl] at hack
            rw [errorReply_msg_type] at hack
            exact absurd hack (by decide)
          · rw [if_neg hl] at hack ⊢
            dsimp only at hack ⊢
            cases hv : (verify_file s.fm h.session_id).2 with
            | none =>
              try simp only [hv] at hack
              try dsimp only at hack
              rw [errorReply_msg_type] at hack
              exact absurd hack (by decide)
            | some v =>
              try simp only [hv] at hack
              try simp only [hv]
              try dsimp only at hack
              try dsimp only
              by_cases hne : v ≠ unpack32 p
              · rw [if_pos hne] at hack
                rw [errorReply_msg_type] at hack
                exact absurd hack (by decide)
              · rw [if_neg hne] at hack ⊢
                by_cases hok :
                    (complete_transfer (verify_file s.fm h.session_id).1 h.session_id).2 = true
                · rw [if_pos hok]
                  dsimp only
                  obtain ⟨ctx', hctx', hfn⟩ := verify_file_transfers s.fm h.session_id ctx hctx
                  rw [← hfn]
                  exact complete_transfer_true_root _ _ ctx' hctx' hok
                · rw [if_neg hok] at hack
                  rw [errorReply_msg_type] at hack
                  exact absurd hack (by decide)

theorem runTrace_cons (s : ServiceState) (f : ProtocolHeader × List Nat)
    (rest : List (ProtocolHeader × List Nat)) :
    runTrace s (f :: rest) =
      ((runTrace (handle_message s f.1 f.2).1 rest).1,
       (handle_message s f.1 f.2).2 :: (runTrace (handle_message s f.1 f.2).1 rest).2) := rfl

theorem runTrace_root (s : ServiceState) (frames : List (ProtocolHeader × List Nat))
    (name content : List Nat)
    (hafter : alGet (runTrace s frames).1.fm.root name = some content)
    (hne : content ≠ []) :
    alGet s.fm.root name = some content ∨
    ∃ fr ∈ List.zip frames (runTrace s frames).2,
      fr.1.1.msg_type = MessageType.CHECKSUM_VERIFY ∧
      fr.2.1.msg_type = MessageType.ACK := by
  induction frames generalizing s with
  | nil => exact Or.inl hafter
  | cons f rest ih =>
    rw [runTrace_cons] at hafter ⊢
    dsimp only at hafter ⊢
    rcases ih (handle_message s f.1 f.2).1 hafter with hstep | ⟨fr, hmem, hcv⟩
    · rcases handle_message_root s f.1 f.2 name content hstep with h0 | h0 | h0
      · exact Or.inl h0
      · exact absurd h0 hne
      · right
        exact ⟨(f, (handle_message s f.1 f.2).2), by
          rw [List.zip_cons_cons]
          exact List.mem_cons_self _ _, h0.1, h0.2⟩
    · right
      exact ⟨fr, by
        rw [List.zip_cons_cons]
        exact List.mem_cons_of_mem _ hmem, hcv⟩

/-- Amended C1: for every starting state and every trace of frames, a
file holding nonempty content at the end of the trace was either already
present with that same content before the trace or some ChecksumVerify
frame of the trace was answered with an Ack; an Ack-answered
ChecksumVerify publishes the live context's file under root_dir; and
files under root_dir are never removed by any frame. A FileRequest for a
missing path, however, immediately creates an empty file under root_dir
(the touch call), so empty files do appear without any ChecksumVerify. -/
theorem c1_amended_publication :
    (∀ (s : ServiceState) (frames : List (ProtocolHeader × List Nat))
        (name content : List Nat),
      alGet (runTrace s frames).1.fm.root name = some content →
      content ≠ [] →
      alGet s.fm.root name = some content ∨
      ∃ fr ∈ List.zip frames (runTrace s frames).2,
        fr.1.1.msg_type = MessageType.CHECKSUM_VERIFY ∧
        fr.2.1.msg_type = MessageType.ACK) ∧
    (∀ (s : ServiceState) (h : ProtocolHeader) (p : List Nat) (ctx : TransferContext),
      h.msg_type = MessageType.CHECKSUM_VERIFY →
      alGet s.fm.transfers h.session_id = some ctx →
      (handle_message s h p).2.1.msg_type = MessageType.ACK →
      (alGet (handle_message s h p).1.fm.root ctx.filename).isSome = true) ∧
    (∀ (s : ServiceState) (h : ProtocolHeader) (p : List Nat) (name : List Nat),
      (alGet s.fm.root name).isSome = true →
      (alGet (handle_message s h p).1.fm.root name).isSome = true) :=
  ⟨runTrace_root, handle_message_cv_publishes, handle_message_root_mono⟩

/-- Witness for the amended C1: a root holding a nonempty file "a" and
the empty trace satisfy the hypotheses of the only-if clause, and the
initially-present disjunct holds. -/
theorem c1_amended_publication_witness :
    alGet (initService [(msgBytes "a", [1])]).fm.root (msgBytes "a") = some [1] ∨
    ∃ fr ∈ List.zip ([] : List (ProtocolHeader × List Nat))
        (runTrace (initService [(msgBytes "a", [1])]) []).2,
      fr.1.1.msg_type = MessageType.CHECKSUM_VERIFY ∧
      fr.2.1.msg_type = MessageType.ACK :=
  c1_amended_publication.1 (initService [(msgBytes "a", [1])]) [] (msgBytes "a") [1]
    rfl (by decide)

/-- Counterexample to C1: a handshake followed by a FileRequest alone,
with no ChecksumVerify anywhere in the sequence, makes f.txt appear
under root_dir (as an empty file created by touch). -/
theorem c1_counterexample :
    alGet (runTrace (initService [])
        [(⟨0x4442, 1, 1, 4, 0, 0, 0, 1⟩, pack32 1),
         (⟨0x4442, 1, 2, 5, 1, 0, 0, 1⟩, msgBytes "f.txt")]).1.fm.root (msgBytes "f.txt") =
      some [] ∧
    (([(⟨0x4442, 1, 1, 4, 0, 0, 0, 1⟩, pack32 1),
       (⟨0x4442, 1, 2, 5, 1, 0, 0, 1⟩, msgBytes "f.txt")] :
        List (ProtocolHeader × List Nat)).map
      (fun f => f.1.msg_type)).contains MessageType.CHECKSUM_VERIFY = false := by
  decide

/-- Frames of the trivial-upload scenario: version-1 handshake, a
FileRequest for the fresh file hello.txt, one FileData frame with chunk
number 0 and payload "Hi\x0A", and a ChecksumVerify carrying the CRC32
of that payload. -/
def c5Frames : List (ProtocolHeader × List Nat) :=
  [(⟨0x4442, 1, 1, 4, 0, 0, 0, 1⟩, pack32 1),
   (⟨0x4442, 1, 2, 9, 1, 0, 0, 1⟩, msgBytes "hello.txt"),
   (⟨0x4442, 1, 4, 3, 2, 0, 0, 1⟩, [0x48, 0x69, 0x0A]),
   (⟨0x4442, 1, 5, 4, 3, 0, 0, 1⟩, pack32 (crc32 [0x48, 0x69, 0x0A]))]

/-- C5 evaluated on the code: the trivial upload scenario fails. The
FileRequest touches hello.txt, so its size is 0 and the FileMetadata
carries file_size 0; the FileData frame is then refused by write_chunk
(reply Error "Failed to write chunk" instead of Ack), the ChecksumVerify
fails against the empty staging buffer (reply Error "Checksum mismatch"
instead of Ack), and root_dir/hello.txt ends up existing but empty
rather than containing 0x48 0x69 0x0A. -/
theorem c5_trivial_upload_diverges :
    ((runTrace (initService []) c5Frames).2.map (fun r => r.1.msg_type) =
      [MessageType.HANDSHAKE, MessageType.FILE_METADATA, MessageType.ERROR,
       MessageType.ERROR]) ∧
    ((runTrace (initService []) c5Frames).2.map (fun r => r.2)).drop 2 =
      [msgBytes "Failed to write chunk", msgBytes "Checksum mismatch"] ∧
    alGet (runTrace (initService []) c5Frames).1.fm.root (msgBytes "hello.txt") =
      some [] ∧
    some ([] : List Nat) ≠ some [0x48, 0x69, 0x0A] := by
  decide

theorem handle_message_passes (s : ServiceState) (h : ProtocolHeader) (p : List Nat)
    (hm : h.magic = PROTOCOL_MAGIC) (hv : h.version = s.builder.version)
    (hst : is_valid_state_transition s.builder.state h.msg_type = true)
    (hck : h.checksum = 0) :
    handle_message s h p = dispatch_message s h p := by
  unfold handle_message
  rw [if_neg (fun hh => hh hm), if_neg (fun hh => hh hv),
    if_neg (by rw [hst]; simp), if_neg (by simp [hck])]

theorem dispatch_eq_resume (s : ServiceState) (h : ProtocolHeader) (p : List Nat)
    (hmsg : h.msg_type = MessageType.RESUME_REQUEST) :
    dispatch_message s h p = handle_resume_request s h p := by
  unfold dispatch_message
  rw [hmsg]
  norm_num [MessageType.HANDSHAKE, MessageType.FILE_REQUEST, MessageType.FILE_DATA,
    MessageType.CHECKSUM_VERIFY, MessageType.LIST_REQUEST, MessageType.RESUME_REQUEST]

theorem dispatch_eq_file_data (s : ServiceState) (h : ProtocolHeader) (p : List Nat)
    (hmsg : h.msg_type = MessageType.FILE_DATA) :
    dispatch_message s h p = handle_file_data s h p := by
  unfold dispatch_message
  rw [hmsg]
  norm_num [MessageType.HANDSHAKE, MessageType.FILE_REQUEST, MessageType.FILE_DATA]

theorem dispatch_eq_checksum_verify (s : ServiceState) (h : ProtocolHeader) (p : List Nat)
    (hmsg : h.msg_type = MessageType.CHECKSUM_VERIFY) :
    dispatch_message s h p = handle_checksum_verify s h p := by
  unfold dispatch_message
  rw [hmsg]
  norm_num [MessageType.HANDSHAKE, MessageType.FILE_REQUEST, MessageType.FILE_DATA,
    MessageType.CHECKSUM_VERIFY]

theorem prepare_transfer_temp (fm : FMState) (fid : Nat) (fn : List Nat) (fs : Nat) :
    (prepare_transfer fm fid fn fs).1.temp = fm.temp := by
  unfold prepare_transfer
  dsimp only
  split
  · rfl
  · rfl

/-- Success path of _handle_resume_request for a memory-staged size: the
context is rebuilt fresh and the in-memory staging buffer is reset to
empty. -/
theorem handle_resume_request_memory (s : ServiceState) (h : ProtocolHeader) (p : List Nat)
    (fn content : List Nat)
    (hlen : ¬(p.length < 8))
    (hdec : decodeUtf8 (p.drop 8) = some fn)
    (hroot : alGet s.fm.root fn = some content)
    (hoff : ¬(unpack64 (p.take 8) > content.length))
    (hmem : should_use_memory content.length = true) :
    (handle_resume_request s h p).1.fm =
      { s.fm with memory_cache := alSet s.fm.memory_cache h.session_id [],
                  memory_usage := s.fm.memory_usage + content.length,
                  transfers := alSet s.fm.transfers h.session_id
                    ⟨h.session_id, fn, content.length, true, [], none, false⟩ } ∧
    (handle_resume_request s h p).1.builder =
      ⟨s.builder.version, s.builder.sequence_number + 1, h.session_id,
       ProtocolState.TRANSFERRING⟩ := by
  unfold handle_resume_request
  rw [if_neg hlen]
  dsimp only
  rw [hdec]
  dsimp only
  rw [hroot]
  dsimp only
  rw [if_neg hoff]
  unfold prepare_transfer
  try dsimp only
  rw [hmem]
  try dsimp only
  try rw [if_pos rfl]
  exact ⟨rfl, rfl⟩

/-- Success path of _handle_file_data for a memory-staged context. -/
theorem handle_file_data_memory (s : ServiceState) (h : ProtocolHeader) (p : List Nat)
    (ctx : TransferContext) (cache : List Nat)
    (hctx : alGet s.fm.transfers h.session_id = some ctx)
    (hmem : ctx.use_memory = true)
    (hcache : alGet s.fm.memory_cache h.session_id = some cache)
    (hn : ¬(h.chunk_number ≥
        max 1 ((ctx.file_size + s.fm.chunk_size - 1) / s.fm.chunk_size)))
    (hsz : ¬(p.length > (if ctx.file_size > 0 then
        min s.fm.chunk_size (ctx.file_size - h.chunk_number * s.fm.chunk_size)
      else s.fm.chunk_size)))
    (hpos : ¬(h.chunk_number * s.fm.chunk_size ≥ ctx.file_size))
    (hend : ¬(h.chunk_number * s.fm.chunk_size + p.length > ctx.file_size)) :
    (handle_file_data s h p).1.fm =
      { s.fm with
        memory_cache := alSet s.fm.memory_cache h.session_id
          (bufWrite cache (h.chunk_number * s.fm.chunk_size) p),
        transfers := alSet s.fm.transfers h.session_id
          ({ ctx with chunks_received := insertChunk ctx.chunks_received h.chunk_number }) } ∧
    (handle_file_data s h p).1.builder =
      ⟨s.builder.version, s.builder.sequence_number + 1, s.builder.session_id,
       s.builder.state⟩ ∧
    (handle_file_data s h p).2.1.msg_type = MessageType.ACK := by
  have hwc : write_chunk s.fm h.session_id p h.chunk_number =
      ({ s.fm with
          memory_cache := alSet s.fm.memory_cache h.session_id
            (bufWrite cache (h.chunk_number * s.fm.chunk_size) p),
          transfers := alSet s.fm.transfers h.session_id
            ({ ctx with chunks_received := insertChunk ctx.chunks_received h.chunk_number }) },
        true) := by
    unfold write_chunk
    rw [hctx]
    try dsimp only
    rw [if_neg hpos, if_neg hend, hmem]
    try dsimp only
    try rw [if_pos rfl]
    rw [hcache]
  unfold handle_file_data
  rw [hctx]
  try dsimp only
  rw [if_neg hn, if_neg hsz, hwc]
  try dsimp only
  exact ⟨rfl, rfl, rfl⟩

/-- Success path of _handle_checksum_verify for a memory-staged context:
the staging buffer is published under the context filename. -/
theorem handle_checksum_verify_memory (s : ServiceState) (h : ProtocolHeader) (p : List Nat)
    (ctx : TransferContext) (cache : List Nat)
    (hlen4 : ¬(p.length ≠ 4))
    (hctx : alGet s.fm.transfers h.session_id = some ctx)
    (hmem : ctx.use_memory = true)
    (hcache : alGet s.fm.memory_cache h.session_id = some cache)
    (hexp : unpack32 p = crc32 cache) :
    (handle_checksum_verify s h p).1.fm.root = alSet s.fm.root ctx.filename cache ∧
    (handle_checksum_verify s h p).1.builder =
      ⟨s.builder.version, s.builder.sequence_number + 1, s.builder.session_id,
       ProtocolState.COMPLETED⟩ ∧
    (handle_checksum_verify s h p).2.1.msg_type = MessageType.ACK := by
  have hvf : verify_file s.fm h.session_id =
      ({ s.fm with transfers := alSet s.fm.transfers h.session_id ({ ctx with checksum := some (crc32 cache) }) }, some (crc32 cache)) := by
    unfold verify_file
    rw [hctx]
    try dsimp only
    rw [hmem]
    try dsimp only
    try rw [if_pos rfl]
    rw [hcache]
  have hct : complete_transfer (verify_file s.fm h.session_id).1 h.session_id =
      ({ s.fm with
          root := alSet s.fm.root ctx.filename cache,
          transfers := alRemove (alSet s.fm.transfers h.session_id
            ({ ctx with checksum := some (crc32 cache) })) h.session_id,
          memory_cache := alRemove s.fm.memory_cache h.session_id,
          memory_usage := s.fm.memory_usage - cache.length }, true) := by
    rw [hvf]
    unfold complete_transfer
    rw [show alGet (alSet s.fm.transfers h.session_id
        ({ ctx with checksum := some (crc32 cache) })) h.session_id =
      some ({ ctx with checksum := some (crc32 cache) }) from alGet_alSet_self _ _ _]
    try dsimp only
    rw [show ({ ctx with checksum := some (crc32 cache) } : TransferContext).use_memory =
      true from hmem]
    try dsimp only
    try rw [if_pos rfl]
    rw [hcache]
  have hvf2 : (verify_file s.fm h.session_id).2 = some (crc32 cache) := by rw [hvf]
  unfold handle_checksum_verify
  rw [if_neg hlen4]
  try dsimp only
  rw [hvf2]
  try dsimp only
  rw [if_neg (by rw [hexp]; simp)]
  rw [hct]
  try dsimp only
  try rw [if_pos rfl]
  exact ⟨rfl, rfl, rfl⟩

theorem prepare_transfer_chunk_size (fm : FMState) (fid : Nat) (fn : List Nat) (fs : Nat) :
    (prepare_transfer fm fid fn fs).1.chunk_size = fm.chunk_size := by
  unfold prepare_transfer
  dsimp only
  split
  · rfl
  · rfl

theorem prepare_transfer_get_self (fm : FMState) (fid : Nat) (fn : List Nat) (fs : Nat) :
    alGet (prepare_transfer fm fid fn fs).1.transfers fid =
      some (prepare_transfer fm fid fn fs).2 := by
  unfold prepare_transfer
  dsimp only
  split
  · exact alGet_alSet_self _ _ _
  · exact alGet_alSet_self _ _ _

theorem prepare_transfer_ctx_eq (fm fm' : FMState) (fid : Nat) (fn : List Nat) (fs : Nat)
    (ht : fm'.temp = fm.temp) (hcs : fm'.chunk_size = fm.chunk_size) :
    (prepare_transfer fm' fid fn fs).2 = (prepare_transfer fm fid fn fs).2 := by
  unfold prepare_transfer
  dsimp only
  rw [ht, hcs]
  split
  · rfl
  · rfl

theorem resume_idempotent (s : ServiceState) (h : ProtocolHeader) (p : List Nat) :
    alGet (handle_resume_request (handle_resume_request s h p).1 h p).1.fm.transfers
      h.session_id =
    alGet (handle_resume_request s h p).1.fm.transfers h.session_id := by
  unfold handle_resume_request
  by_cases h1 : p.length < 8
  · simp only [if_pos h1]
    rfl
  · simp only [if_neg h1]
    cases hdec : decodeUtf8 (p.drop 8) with
    | none =>
      simp only [hdec]
      rfl
    | some fn =>
      simp only [hdec]
      cases hroot : alGet s.fm.root fn with
      | none =>
        simp only [hroot]
        rw [show alGet (errorReply s "File not found").1.fm.root fn =
          alGet s.fm.root fn from rfl, hroot]
        rfl
      | some content =>
        simp only [hroot]
        try dsimp only
        by_cases hoff : unpack64 (p.take 8) > content.length
        · simp only [if_pos hoff]
          rw [show alGet (errorReply s "Invalid offset").1.fm.root fn =
            alGet s.fm.root fn from rfl, hroot]
          try dsimp only
          simp only [if_pos hoff]
          rfl
        · simp only [if_neg hoff]
          try dsimp only
          rw [prepare_transfer_root]
          simp only [hroot]
          try dsimp only
          simp only [if_neg hoff]
          try dsimp only
          rw [prepare_transfer_get_self, prepare_transfer_get_self]
          rw [prepare_transfer_ctx_eq s.fm _ _ _ _ (prepare_transfer_temp _ _ _ _)
            (prepare_transfer_chunk_size _ _ _ _)]

/-- Chunk i of an upload content, as the client slices it. -/
def chunkOf (D : List Nat) (cs i : Nat) : List Nat :=
  (D.drop (i * cs)).take cs

/-- Sequential staging writes of chunks a, a+1, ..., a+n-1 of content D
through the bufWrite staging semantics. -/
def writeChunkSeq (D : List Nat) (cs a n : Nat) (buf : List Nat) : List Nat :=
  (List.range' a n).foldl (fun b i => bufWrite b (i * cs) (chunkOf D cs i)) buf

theorem bufWrite_append (buf : List Nat) (c : List Nat) :
    bufWrite buf buf.length c = buf ++ c := by
  unfold bufWrite
  simp

theorem writeChunkSeq_take (D : List Nat) (n : Nat) : ∀ a : Nat,
    (a + n) * 8192 ≤ (D.length + 8192 - 1) / 8192 * 8192 →
    writeChunkSeq D 8192 a n (D.take (a * 8192)) = D.take ((a + n) * 8192) := by
  induction n with
  | zero =>
    intro a _
    simp [writeChunkSeq]
  | succ n ih =>
    intro a hle
    have halen : a * 8192 ≤ D.length := by omega
    have hl : (D.take (a * 8192)).length = a * 8192 := by
      rw [List.length_take]
      omega
    have hstep : bufWrite (D.take (a * 8192)) (a * 8192) (chunkOf D 8192 a) =
        D.take ((a + 1) * 8192) := by
      unfold bufWrite chunkOf
      set c := (D.drop (a * 8192)).take 8192 with hc
      rw [hl, Nat.sub_self, List.replicate_zero, List.append_nil,
        List.take_of_length_le (le_of_eq hl)]
      have hdrop : List.drop (a * 8192 + c.length) (List.take (a * 8192) D) = [] :=
        List.drop_eq_nil_of_le (by rw [hl]; omega)
      rw [hdrop, List.append_nil, hc, ← List.take_add]
      have harith : a * 8192 + 8192 = (a + 1) * 8192 := by ring
      rw [harith]
    have hrange : List.range' a (n + 1) = a :: List.range' (a + 1) n := rfl
    unfold writeChunkSeq
    rw [hrange, List.foldl_cons, hstep]
    have hfold := ih (a + 1) (by omega)
    unfold writeChunkSeq at hfold
    rw [hfold]
    have harith2 : a + 1 + n = a + (n + 1) := by omega
    rw [harith2]

theorem writeChunkSeq_complete (D : List Nat) (k : Nat)
    (hk : k ≤ (D.length + 8192 - 1) / 8192) :
    writeChunkSeq D 8192 k ((D.length + 8192 - 1) / 8192 - k) (D.take (k * 8192)) = D ∧
    writeChunkSeq D 8192 0 ((D.length + 8192 - 1) / 8192) [] = D := by
  have hlen : D.length ≤ (D.length + 8192 - 1) / 8192 * 8192 := by omega
  constructor
  · have h := writeChunkSeq_take D ((D.length + 8192 - 1) / 8192 - k) k (by omega)
    rw [h, show k + ((D.length + 8192 - 1) / 8192 - k) = (D.length + 8192 - 1) / 8192
      from by omega]
    exact List.take_of_length_le hlen
  · have h := writeChunkSeq_take D ((D.length + 8192 - 1) / 8192) 0 (by omega)
    rw [show (D.take (0 * 8192) : List Nat) = [] from rfl] at h
    rw [h]
    simpa using List.take_of_length_le hlen

/-! ## C8: concrete two-run scenario -/

/-- Content of chunk 0 as originally uploaded: a leading 1 byte followed
by zeros, filling one full chunk of 8192 bytes. -/
def c8D0 : List Nat := 1 :: List.replicate 8191 0

/-- Content of the final chunk (chunk 1): 8 bytes, completing a file of
size 8200. -/
def c8D1 : List Nat := List.replicate 8 0

/-- The mid-upload transfer context: file "x" of declared size 8200,
memory-staged, chunk 0 already received. -/
def c8Ctx0 : TransferContext := ⟨1, msgBytes "x", 8200, true, [0], none, false⟩

/-- Service state in the middle of an upload of file "x" (size 8200,
chunk size 8192): chunk 0 is staged in memory and the root directory
holds a previous version of the file of the same size (which is what
lets a ResumeRequest pass its existence and size checks). -/
def c8State : ServiceState :=
  { fm := { root := [(msgBytes "x", List.replicate 8200 0)], temp := [],
            transfers := [(1, c8Ctx0)], memory_cache := [(1, c8D0)],
            memory_usage := 8200, chunk_size := 8192 },
    builder := { version := 1, sequence_number := 3, session_id := 1,
                 state := ProtocolState.TRANSFERRING } }

def c8FD : ProtocolHeader := ⟨PROTOCOL_MAGIC, 1, MessageType.FILE_DATA, 8, 0, 0, 1, 1⟩

def c8CV : ProtocolHeader := ⟨PROTOCOL_MAGIC, 1, MessageType.CHECKSUM_VERIFY, 4, 0, 0, 0, 1⟩

def c8RR : ProtocolHeader := ⟨PROTOCOL_MAGIC, 1, MessageType.RESUME_REQUEST, 9, 0, 0, 0, 1⟩

/-- ResumeRequest payload: offset 8192 (the end of chunk 0), filename "x". -/
def c8RRpay : List Nat := pack64 8192 ++ msgBytes "x"

def c8Ctx1 : TransferContext := { c8Ctx0 with chunks_received := insertChunk [0] 1 }

/-- State after the continuation FileData (chunk 1) without any resume. -/
def c8S1 : ServiceState :=
  { fm := { c8State.fm with
      memory_cache := alSet c8State.fm.memory_cache 1 (c8D0 ++ c8D1),
      transfers := alSet c8State.fm.transfers 1 c8Ctx1 },
    builder := ⟨1, 4, 1, ProtocolState.TRANSFERRING⟩ }

/-- The transfer context rebuilt by a ResumeRequest: no received chunks. -/
def c8CtxR : TransferContext := ⟨1, msgBytes "x", 8200, true, [], none, false⟩

/-- State after one ResumeRequest from c8State: the staging buffer has
been reset to empty by prepare_transfer. -/
def c8R1 : ServiceState :=
  { fm := { c8State.fm with
      memory_cache := alSet c8State.fm.memory_cache 1 [],
      memory_usage := 16400,
      transfers := alSet c8State.fm.transfers 1 c8CtxR },
    builder := ⟨1, 4, 1, ProtocolState.TRANSFERRING⟩ }

/-- State after a second, identical ResumeRequest. -/
def c8R2 : ServiceState :=
  { fm := { c8R1.fm with
      memory_cache := alSet c8R1.fm.memory_cache 1 [],
      memory_usage := 24600,
      transfers := alSet c8R1.fm.transfers 1 c8CtxR },
    builder := ⟨1, 5, 1, ProtocolState.TRANSFERRING⟩ }

def c8Ctx2 : TransferContext := { c8CtxR with chunks_received := insertChunk [] 1 }

/-- State after the post-resume FileData (chunk 1): the staging now
holds zeros where chunk 0's data used to be. -/
def c8S3 : ServiceState :=
  { fm := { c8R2.fm with
      memory_cache := alSet c8R2.fm.memory_cache 1 (List.replicate 8192 0 ++ c8D1),
      transfers := alSet c8R2.fm.transfers 1 c8Ctx2 },
    builder := ⟨1, 6, 1, ProtocolState.TRANSFERRING⟩ }

theorem c8D0_length : c8D0.length = 8192 := by
  rw [show c8D0 = 1 :: List.replicate 8191 0 from rfl, List.length_cons,
    List.length_replicate]

theorem c8_bufWrite_full : bufWrite c8D0 8192 c8D1 = c8D0 ++ c8D1 := by
  have h := bufWrite_append c8D0 c8D1
  rw [c8D0_length] at h
  exact h

theorem c8_bufWrite_empty : bufWrite [] 8192 c8D1 = List.replicate 8192 0 ++ c8D1 := by
  unfold bufWrite
  rw [List.length_nil, Nat.sub_zero, List.nil_append, List.drop_nil, List.append_nil,
    List.take_replicate, Nat.min_self]

theorem c8_fresh_fd : (handle_message c8State c8FD c8D1).1 = c8S1 := by
  rw [handle_message_passes c8State c8FD c8D1 rfl rfl (by decide) rfl,
    dispatch_eq_file_data c8State c8FD c8D1 rfl]
  have e2 := handle_file_data_memory c8State c8FD c8D1 c8Ctx0 c8D0 rfl rfl rfl
    (by decide) (by decide) (by decide) (by decide)
  have hfm := e2.1
  rw [show c8FD.chunk_number * c8State.fm.chunk_size = 8192 from rfl] at hfm
  rw [c8_bufWrite_full] at hfm
  calc (handle_file_data c8State c8FD c8D1).1
      = ⟨(handle_file_data c8State c8FD c8D1).1.fm,
         (handle_file_data c8State c8FD c8D1).1.builder⟩ := rfl
    _ = c8S1 := by rw [hfm, e2.2.1]; rfl

theorem c8_fresh_cv :
    alGet (handle_message c8S1 c8CV (pack32 (crc32 (c8D0 ++ c8D1)))).1.fm.root
      (msgBytes "x") = some (c8D0 ++ c8D1) ∧
    (handle_message c8S1 c8CV (pack32 (crc32 (c8D0 ++ c8D1)))).2.1.msg_type =
      MessageType.ACK := by
  rw [handle_message_passes c8S1 c8CV _ rfl rfl (by decide) rfl,
    dispatch_eq_checksum_verify c8S1 c8CV _ rfl]
  have e4 := handle_checksum_verify_memory c8S1 c8CV (pack32 (crc32 (c8D0 ++ c8D1)))
    c8Ctx1 (c8D0 ++ c8D1) (by decide) rfl rfl rfl
    (unpack32_pack32 _ (crc32_lt _))
  refine ⟨?_, e4.2.2⟩
  rw [e4.1, show c8Ctx1.filename = msgBytes "x" from rfl]
  exact alGet_alSet_self _ _ _

theorem ServiceState.eq_of (s t : ServiceState) (h1 : s.fm = t.fm)
    (h2 : s.builder = t.builder) : s = t := by
  cases s
  cases t
  cases h1
  cases h2
  rfl

theorem c8_resume_step1 : (handle_message c8State c8RR c8RRpay).1 = c8R1 := by
  rw [handle_message_passes c8State c8RR c8RRpay rfl rfl (by decide) rfl,
    dispatch_eq_resume c8State c8RR c8RRpay rfl]
  have f2 := handle_resume_request_memory c8State c8RR c8RRpay (msgBytes "x")
    (List.replicate 8200 0) (by decide) (by decide) rfl
    (by
      rw [show c8RRpay.take 8 = pack64 8192 from rfl,
        unpack64_pack64 8192 (by norm_num), List.length_replicate]
      norm_num)
    (by rw [List.length_replicate]; decide)
  have hfm := f2.1
  rw [List.length_replicate] at hfm
  exact ServiceState.eq_of _ _ (by rw [hfm]; rfl) (by rw [f2.2]; rfl)

theorem c8_resume_step2 : (handle_message c8R1 c8RR c8RRpay).1 = c8R2 := by
  rw [handle_message_passes c8R1 c8RR c8RRpay rfl rfl (by decide) rfl,
    dispatch_eq_resume c8R1 c8RR c8RRpay rfl]
  have f2 := handle_resume_request_memory c8R1 c8RR c8RRpay (msgBytes "x")
    (List.replicate 8200 0) (by decide) (by decide) rfl
    (by
      rw [show c8RRpay.take 8 = pack64 8192 from rfl,
        unpack64_pack64 8192 (by norm_num), List.length_replicate]
      norm_num)
    (by rw [List.length_replicate]; decide)
  have hfm := f2.1
  rw [List.length_replicate] at hfm
  exact ServiceState.eq_of _ _ (by rw [hfm]; rfl) (by rw [f2.2]; rfl)

theorem c8_resume_fd : (handle_message c8R2 c8FD c8D1).1 = c8S3 := by
  rw [handle_message_passes c8R2 c8FD c8D1 rfl rfl (by decide) rfl,
    dispatch_eq_file_data c8R2 c8FD c8D1 rfl]
  have e2 := handle_file_data_memory c8R2 c8FD c8D1 c8CtxR [] rfl rfl rfl
    (by decide) (by decide) (by decide) (by decide)
  have hfm := e2.1
  rw [show c8FD.chunk_number * c8R2.fm.chunk_size = 8192 from rfl] at hfm
  rw [c8_bufWrite_empty] at hfm
  calc (handle_file_data c8R2 c8FD c8D1).1
      = ⟨(handle_file_data c8R2 c8FD c8D1).1.fm,
         (handle_file_data c8R2 c8FD c8D1).1.builder⟩ := rfl
    _ = c8S3 := by rw [hfm, e2.2.1]; rfl

theorem c8_resume_cv :
    alGet (handle_message c8S3 c8CV
        (pack32 (crc32 (List.replicate 8192 0 ++ c8D1)))).1.fm.root
      (msgBytes "x") = some (List.replicate 8192 0 ++ c8D1) ∧
    (handle_message c8S3 c8CV
        (pack32 (crc32 (List.replicate 8192 0 ++ c8D1)))).2.1.msg_type =
      MessageType.ACK := by
  rw [handle_message_passes c8S3 c8CV _ rfl rfl (by decide) rfl,
    dispatch_eq_checksum_verify c8S3 c8CV _ rfl]
  have e4 := handle_checksum_verify_memory c8S3 c8CV
    (pack32 (crc32 (List.replicate 8192 0 ++ c8D1)))
    c8Ctx2 (List.replicate 8192 0 ++ c8D1) (by decide) rfl rfl rfl
    (unpack32_pack32 _ (crc32_lt _))
  refine ⟨?_, e4.2.2⟩
  rw [e4.1, show c8Ctx2.filename = msgBytes "x" from rfl]
  exact alGet_alSet_self _ _ _

theorem c8_contents_differ : c8D0 ++ c8D1 ≠ List.replicate 8192 0 ++ c8D1 := by
  intro h
  have h1 : (c8D0 ++ c8D1).head? = some 1 := by
    rw [show c8D0 = 1 :: List.replicate 8191 0 from rfl, List.cons_append,
      List.head?_cons]
  have h2 : ((List.replicate 8192 0 : List Nat) ++ c8D1).head? = some 0 := by
    have hrep : (List.replicate 8192 0 : List Nat) = 0 :: List.replicate 8191 0 := by
      rw [show (8192 : Nat) = 8191 + 1 from rfl]
      exact List.replicate_succ 0 8191
    rw [hrep, List.cons_append, List.head?_cons]
  rw [h, h2] at h1
  simp at h1

/-- C8 (amended): repeating a ResumeRequest with the same offset and
filename leaves the transfer's set of received chunk indices unchanged
(resume is idempotent at the context level), and the staging-write
semantics is offset-correct: writing the remaining chunks k, k+1, ...
on top of a staging that retains the first k chunks completes the file
byte-for-byte identically to writing every chunk from scratch. However
- and this is where the original claim fails - for a memory-staged
transfer (declared size at most the 10 KiB threshold of the hybrid
strategy) a ResumeRequest rebuilds the context through
prepare_transfer, which resets the in-memory staging buffer to empty,
so the data of the chunks before the resume offset is discarded rather
than retained. Disk-staged transfers are unaffected: the context
rebuild leaves the temp directory untouched (last conjunct), and the
disk branch of prepare_transfer rescans the retained staging file. -/
theorem c8_amended_resume (s : ServiceState) (h : ProtocolHeader) (p : List Nat)
    (fn content D : List Nat) (k : Nat)
    (hk : k ≤ (D.length + 8192 - 1) / 8192) :
    Option.map TransferContext.chunks_received
        (alGet (handle_resume_request (handle_resume_request s h p).1 h p).1.fm.transfers
          h.session_id) =
      Option.map TransferContext.chunks_received
        (alGet (handle_resume_request s h p).1.fm.transfers h.session_id) ∧
    (¬ p.length < 8 → decodeUtf8 (p.drop 8) = some fn →
      alGet s.fm.root fn = some content →
      ¬ unpack64 (p.take 8) > content.length →
      should_use_memory content.length = true →
      alGet (handle_resume_request s h p).1.fm.memory_cache h.session_id = some []) ∧
    writeChunkSeq D 8192 k ((D.length + 8192 - 1) / 8192 - k) (D.take (k * 8192)) = D ∧
    writeChunkSeq D 8192 0 ((D.length + 8192 - 1) / 8192) [] = D ∧
    (∀ (fm : FMState) (fid : Nat) (fn2 : List Nat) (fs : Nat),
      (prepare_transfer fm fid fn2 fs).1.temp = fm.temp) := by
  refine ⟨congrArg (Option.map TransferContext.chunks_received)
    (resume_idempotent s h p), ?_, (writeChunkSeq_complete D k hk).1,
    (writeChunkSeq_complete D k hk).2, prepare_transfer_temp⟩
  intro h1 h2 h3 h4 h5
  rw [(handle_resume_request_memory s h p fn content h1 h2 h3 h4 h5).1]
  exact alGet_alSet_self _ _ _

/-- Witness for the amended C8 at a concrete content of 5 bytes (one
chunk): the hypothesis is discharged at k = 1. -/
theorem c8_amended_resume_witness :
    1 ≤ ((List.replicate 5 1 : List Nat).length + 8192 - 1) / 8192 ∧
    writeChunkSeq (List.replicate 5 1) 8192 0
      (((List.replicate 5 1 : List Nat).length + 8192 - 1) / 8192) [] =
      List.replicate 5 1 :=
  ⟨by rw [List.length_replicate], (c8_amended_resume (initService [])
    ⟨PROTOCOL_MAGIC, 1, MessageType.RESUME_REQUEST, 0, 0, 0, 0, 1⟩ [] [] []
    (List.replicate 5 1) 1 (by rw [List.length_replicate])).2.2.2.1⟩

/-- Counterexample to C8 as stated: from the same mid-upload state
(file "x" of size 8200, chunk 0 of 8192 bytes staged in memory, chunk 1
of 8 bytes outstanding), run A sends FileData chunk 1 and a matching
ChecksumVerify and publishes the true content c8D0 ++ c8D1; run B first
sends the same ResumeRequest twice (offset 8192, the start of the
outstanding chunk), then the same FileData chunk 1, then a
ChecksumVerify matching what the server now holds - and the server acks
and publishes a file whose first 8192 bytes are zeros instead of chunk
0's data. Completion after resume is therefore not byte-for-byte
identical to the no-resume completion of the same upload: the resumes
silently discarded the staged chunk 0. -/
theorem c8_counterexample :
    alGet (handle_message (handle_message c8State c8FD c8D1).1 c8CV
        (pack32 (crc32 (c8D0 ++ c8D1)))).1.fm.root (msgBytes "x")
      = some (c8D0 ++ c8D1) ∧
    (handle_message (handle_message c8State c8FD c8D1).1 c8CV
        (pack32 (crc32 (c8D0 ++ c8D1)))).2.1.msg_type = MessageType.ACK ∧
    alGet (handle_message (handle_message (handle_message (handle_message
          c8State c8RR c8RRpay).1 c8RR c8RRpay).1 c8FD c8D1).1 c8CV
        (pack32 (crc32 (List.replicate 8192 0 ++ c8D1)))).1.fm.root (msgBytes "x")
      = some (List.replicate 8192 0 ++ c8D1) ∧
    (handle_message (handle_message (handle_message (handle_message
          c8State c8RR c8RRpay).1 c8RR c8RRpay).1 c8FD c8D1).1 c8CV
        (pack32 (crc32 (List.replicate 8192 0 ++ c8D1)))).2.1.msg_type =
      MessageType.ACK ∧
    c8D0 ++ c8D1 ≠ List.replicate 8192 0 ++ c8D1 := by
  rw [c8_fresh_fd, c8_resume_step1, c8_resume_step2, c8_resume_fd]
  exact ⟨c8_fresh_cv.1, c8_fresh_cv.2, c8_resume_cv.1, c8_resume_cv.2,
    c8_contents_differ⟩
